import Mathlib

/-!
# Azure IoT Hub MQTT helper: connection state machine, dispatcher and public API

A shallow embedding of `subsys/net/lib/azure_iot_hub/src/azure_iot_hub_mqtt.c`.

* The file-scope variables of the C module (`mqtt_state`, `current_cfg`, `mqtt_client`, `broker`,
  `connection_poll_sem`, the function-static `certs_added`) are the fields of `World`.
* `__ASSERT(false, "Illegal state transition ...")` is a fatal fault: a function that reaches it
  yields `Except.error (Fault.illegal_transition _ _)` and performs nothing afterwards.
* Calls into external collaborators (MQTT codec, resolver, credential store, socket layer,
  semaphore) and invocations of application callbacks are appended to `World.trace`, in program
  order.  The value an external call returns is an argument of the embedded function.
* Application callbacks are recorded, not executed.  In every function of the module the
  callback invocation is the last access to the module state, so what a callback does (it may
  call the public API) acts on the world the function returns.
* The worker loop is embedded sequentially: between two polls the state changes only through the
  events the codec dispatches.
* `int` values are modelled in `Int`; the only arithmetic on them is the negation of the resolver
  error code in `broker_init`.
-/

namespace AzureIotHubMqtt

/-! ## Data model -/

/-- The six values of `enum mqtt_state`. -/
inductive mqtt_state where
  | MQTT_STATE_UNINIT
  | MQTT_STATE_DISCONNECTED
  | MQTT_STATE_CONNECTING
  | MQTT_STATE_TRANSPORT_CONNECTED
  | MQTT_STATE_CONNECTED
  | MQTT_STATE_DISCONNECTING
  deriving DecidableEq, Repr, Inhabited

open mqtt_state

/-- The fatal outcome of `__ASSERT(false, ...)` in `mqtt_state_set`, with the two states the
assertion message prints. -/
inductive Fault where
  | illegal_transition (old_state new_state : mqtt_state)
  deriving DecidableEq, Repr

/-- Values of `enum mqtt_helper_error` passed to `on_error`. -/
inductive mqtt_helper_error where
  | MQTT_HELPER_ERROR_MSG_SIZE
  deriving DecidableEq, Repr

/-- The callback slots of `struct mqtt_helper_cfg`: `true` when the function pointer is set,
`false` when it is `NULL`. -/
structure mqtt_helper_cfg where
  on_connack : Bool
  on_disconnect : Bool
  on_publish : Bool
  on_puback : Bool
  on_suback : Bool
  on_pingresp : Bool
  on_error : Bool
  deriving DecidableEq, Repr

/-- The configuration after `memset(&current_cfg, 0, sizeof(current_cfg))`. -/
def mqtt_helper_cfg.zero : mqtt_helper_cfg :=
  { on_connack := false, on_disconnect := false, on_publish := false, on_puback := false,
    on_suback := false, on_pingresp := false, on_error := false }

/-- The fields of `struct mqtt_helper_conn_params` the module reads. -/
structure mqtt_helper_conn_params where
  hostname : String
  device_id : String
  user_name : String
  deriving DecidableEq, Repr

/-- The fields of `struct mqtt_sec_config` written by `client_broker_init`. -/
structure mqtt_sec_config where
  peer_verify : Nat
  cipher_count : Nat
  sec_tag_list : List Int
  session_cache : Nat
  hostname : String
  set_native_tls : Bool
  deriving DecidableEq, Repr

/-- The fields of `struct mqtt_client` written by this module.  Fields owned by the codec are not
modelled. -/
structure mqtt_client where
  broker_set : Bool
  evt_cb_set : Bool
  client_id : String
  password_set : Bool
  protocol_version : Nat
  rx_buf_size : Nat
  tx_buf_size : Nat
  transport_type : Nat
  user_name : Option String
  tls : mqtt_sec_config
  deriving DecidableEq, Repr

/-- The all-zero transport handle, as left by `memset(&mqtt_client, 0, sizeof(mqtt_client))`. -/
def mqtt_client.zero : mqtt_client :=
  { broker_set := false, evt_cb_set := false, client_id := "", password_set := false,
    protocol_version := 0, rx_buf_size := 0, tx_buf_size := 0, transport_type := 0,
    user_name := none,
    tls := { peer_verify := 0, cipher_count := 0, sec_tag_list := [], session_cache := 0,
             hostname := "", set_native_tls := false } }

/-- The IPv4 view of the static `broker` socket address. -/
structure sockaddr_in where
  sin_family : Nat
  sin_port : Nat
  sin_addr : Nat
  deriving DecidableEq, Repr

/-- One entry of the list returned by `getaddrinfo`: its `ai_addrlen` and the `s_addr` of its
`ai_addr` read as a `struct sockaddr_in`. -/
structure addrinfo where
  ai_addrlen : Nat
  s_addr : Nat
  deriving DecidableEq, Repr

/-- Everything the module does that is visible outside it, in program order. -/
inductive Action where
  | state_transition (old_state new_state : mqtt_state)
  | k_sem_give
  | k_sem_take
  | mqtt_client_init
  | getaddrinfo (hostname : String)
  | freeaddrinfo
  | tls_credential_add (kind : Nat)
  | mqtt_connect
  | setsockopt_sndtimeo (tv_sec : Int)
  | mqtt_disconnect
  | mqtt_subscribe (list_count : Nat)
  | mqtt_publish (message_id : Nat)
  | mqtt_readall_publish_payload (length : Nat)
  | mqtt_publish_qos1_ack (message_id : Nat)
  | mqtt_keepalive_time_left
  | poll (timeout : Int)
  | mqtt_live
  | mqtt_input
  | on_connack (return_code : Nat)
  | on_disconnect (result : Int)
  | on_publish (topic : String) (payload_size : Nat)
  | on_puback (message_id : Nat) (result : Int)
  | on_suback (message_id : Nat) (result : Int)
  | on_pingresp
  | on_error (err : mqtt_helper_error)
  deriving DecidableEq, Repr

/-- Whether an action is a call of an external collaborator (codec, resolver, credential store,
socket layer), as opposed to a state transition, a semaphore operation or a callback. -/
def Action.is_external_call : Action → Bool
  | .mqtt_client_init => true
  | .getaddrinfo _ => true
  | .freeaddrinfo => true
  | .tls_credential_add _ => true
  | .mqtt_connect => true
  | .setsockopt_sndtimeo _ => true
  | .mqtt_disconnect => true
  | .mqtt_subscribe _ => true
  | .mqtt_publish _ => true
  | .mqtt_readall_publish_payload _ => true
  | .mqtt_publish_qos1_ack _ => true
  | .mqtt_keepalive_time_left => true
  | .poll _ => true
  | .mqtt_live => true
  | .mqtt_input => true
  | _ => false

/-- The build-time configuration (`CONFIG_AZURE_IOT_HUB_*` and related Kconfig symbols). -/
structure Kconfig where
  /-- Symbol `CONFIG_AZURE_IOT_HUB_MQTT_PAYLOAD_BUFFER_LEN`, that is `sizeof(payload_buf)`. -/
  MQTT_PAYLOAD_BUFFER_LEN : Nat
  /-- Symbol `CONFIG_AZURE_IOT_HUB_MQTT_RX_TX_BUFFER_LEN`. -/
  MQTT_RX_TX_BUFFER_LEN : Nat
  /-- Symbol `CONFIG_AZURE_IOT_HUB_STATIC_IP_ADDRESS`; the empty string when unset. -/
  STATIC_IP_ADDRESS : String
  /-- Symbol `CONFIG_AZURE_IOT_HUB_PORT`. -/
  PORT : Nat
  /-- Symbol `CONFIG_AZURE_IOT_HUB_SEC_TAG`. -/
  SEC_TAG : Int
  /-- Symbol `CONFIG_AZURE_IOT_HUB_SECONDARY_SEC_TAG`. -/
  SECONDARY_SEC_TAG : Int
  /-- Flag `IS_ENABLED(CONFIG_AZURE_IOT_HUB_NATIVE_TLS)`. -/
  NATIVE_TLS : Bool
  /-- Flag `defined(CONFIG_AZURE_IOT_HUB_PROVISION_CERTIFICATES)`. -/
  PROVISION_CERTIFICATES : Bool
  /-- Flag `IS_ENABLED(CONFIG_NET_SOCKETS_SOCKOPT_TLS)`. -/
  NET_SOCKETS_SOCKOPT_TLS : Bool
  /-- Flag `IS_ENABLED(CONFIG_AZURE_IOT_HUB_SEND_TIMEOUT)`. -/
  SEND_TIMEOUT : Bool
  /-- Symbol `CONFIG_AZURE_IOT_HUB_SEND_TIMEOUT_SEC`. -/
  SEND_TIMEOUT_SEC : Int
  deriving Repr

/-- The file-scope state of the module together with the record of its visible actions. -/
structure World where
  mqtt_state : mqtt_state
  current_cfg : mqtt_helper_cfg
  mqtt_client : mqtt_client
  broker : sockaddr_in
  /-- Count of `connection_poll_sem` (`K_SEM_DEFINE(connection_poll_sem, 0, 1)`). -/
  connection_poll_sem : Nat
  /-- The function-static `certs_added` of `certificates_provision`. -/
  certs_added : Bool
  trace : List Action
  deriving DecidableEq, Repr

/-- The state of the module at program start: `mqtt_state = MQTT_STATE_UNINIT`, zero-initialised
statics, semaphore count 0, nothing done yet. -/
def World.boot : World :=
  { mqtt_state := MQTT_STATE_UNINIT, current_cfg := mqtt_helper_cfg.zero,
    mqtt_client := mqtt_client.zero,
    broker := { sin_family := 0, sin_port := 0, sin_addr := 0 },
    connection_poll_sem := 0, certs_added := false, trace := [] }

/-- Append one visible action to the record. -/
def World.emit (w : World) (a : Action) : World :=
  { w with trace := w.trace ++ [a] }

/-! ## Platform constants (Zephyr headers) -/

/-- Constant `EAGAIN` of Zephyr errno.h. -/
def EAGAIN : Int := 11
/-- Constant `EOPNOTSUPP` of Zephyr errno.h. -/
def EOPNOTSUPP : Int := 95
/-- Constant `EMSGSIZE` of Zephyr errno.h. -/
def EMSGSIZE : Int := 122
/-- Constant `ENOTCONN` of Zephyr errno.h. -/
def ENOTCONN : Int := 128
/-- Constant `MQTT_CONNECTION_ACCEPTED` of `enum mqtt_conn_return_code`. -/
def MQTT_CONNECTION_ACCEPTED : Nat := 0
/-- Constant `MQTT_QOS_1_AT_LEAST_ONCE` of `enum mqtt_qos`. -/
def MQTT_QOS_1_AT_LEAST_ONCE : Nat := 1
/-- Constant `MQTT_VERSION_3_1_1`. -/
def MQTT_VERSION_3_1_1 : Nat := 4
/-- Constant `MQTT_TRANSPORT_SECURE`. -/
def MQTT_TRANSPORT_SECURE : Nat := 1
/-- Constant `TLS_PEER_VERIFY_REQUIRED`. -/
def TLS_PEER_VERIFY_REQUIRED : Nat := 2
/-- Constant `TLS_SESSION_CACHE_DISABLED`. -/
def TLS_SESSION_CACHE_DISABLED : Nat := 0
/-- Constant `TLS_CREDENTIAL_CA_CERTIFICATE`. -/
def TLS_CREDENTIAL_CA_CERTIFICATE : Nat := 1
/-- Constant `TLS_CREDENTIAL_SERVER_CERTIFICATE`. -/
def TLS_CREDENTIAL_SERVER_CERTIFICATE : Nat := 2
/-- Constant `TLS_CREDENTIAL_PRIVATE_KEY`. -/
def TLS_CREDENTIAL_PRIVATE_KEY : Nat := 3
/-- Constant `AF_INET`. -/
def AF_INET : Nat := 1
/-- Constant `sizeof(struct sockaddr_in)`. -/
def SIZEOF_SOCKADDR_IN : Nat := 8
/-- Constant `POLLIN`. -/
def POLLIN : Nat := 1
/-- Constant `POLLERR`. -/
def POLLERR : Nat := 8
/-- Constant `POLLHUP`. -/
def POLLHUP : Nat := 16
/-- Constant `POLLNVAL`. -/
def POLLNVAL : Nat := 32

/-- Function `htons` on a little-endian target: swap the two bytes of a 16-bit value. -/
def htons (x : Nat) : Nat := (x % 256) * 256 + (x / 256) % 256

/-! ## Connection state machine -/

/-- Constant `mqtt_state_get`. -/
def mqtt_state_get (w : World) : mqtt_state := w.mqtt_state

/-- The `switch` of `mqtt_state_set`: the value of `notify_error` after it, for the current state
`cur` and the requested `new_state`. -/
def notify_error_of (cur new_state : mqtt_state) : Bool :=
  match cur with
  | MQTT_STATE_UNINIT =>
    if new_state ≠ MQTT_STATE_DISCONNECTED then true else false
  | MQTT_STATE_DISCONNECTED =>
    if new_state ≠ MQTT_STATE_CONNECTING ∧ new_state ≠ MQTT_STATE_UNINIT then true else false
  | MQTT_STATE_CONNECTING =>
    if new_state ≠ MQTT_STATE_CONNECTED ∧ new_state ≠ MQTT_STATE_DISCONNECTED then true else false
  | MQTT_STATE_TRANSPORT_CONNECTED =>
    if new_state ≠ MQTT_STATE_CONNECTING ∧ new_state ≠ MQTT_STATE_DISCONNECTED then true else false
  | MQTT_STATE_CONNECTED =>
    if new_state ≠ MQTT_STATE_DISCONNECTING ∧ new_state ≠ MQTT_STATE_DISCONNECTED then true
    else false
  | MQTT_STATE_DISCONNECTING =>
    if new_state ≠ MQTT_STATE_DISCONNECTED then true else false

/-- The tail of `mqtt_state_set`: log the transition and store `new_state` in `mqtt_state`. -/
def World.transition (w : World) (new_state : AzureIotHubMqtt.mqtt_state) : World :=
  { (w.emit (.state_transition w.mqtt_state new_state)) with mqtt_state := new_state }

/-- Function `mqtt_state_set`: return at once when the state is already `new_state`; otherwise
run the legality `switch`, fault on an illegal pair, and else store `new_state`. -/
def mqtt_state_set (new_state : mqtt_state) (w : World) : Except Fault World :=
  if mqtt_state_get w = new_state then
    .ok w
  else if notify_error_of (mqtt_state_get w) new_state then
    .error (.illegal_transition w.mqtt_state new_state)
  else
    .ok (w.transition new_state)

/-- Constant `mqtt_state_verify`. -/
def mqtt_state_verify (state : mqtt_state) (w : World) : Bool :=
  decide (mqtt_state_get w = state)

/-- The legal-transition table of the specification, section 4.1. -/
def legal_set : mqtt_state → List mqtt_state
  | MQTT_STATE_UNINIT => [MQTT_STATE_DISCONNECTED]
  | MQTT_STATE_DISCONNECTED => [MQTT_STATE_CONNECTING, MQTT_STATE_UNINIT]
  | MQTT_STATE_CONNECTING => [MQTT_STATE_CONNECTED, MQTT_STATE_DISCONNECTED]
  | MQTT_STATE_TRANSPORT_CONNECTED => [MQTT_STATE_CONNECTING, MQTT_STATE_DISCONNECTED]
  | MQTT_STATE_CONNECTED => [MQTT_STATE_DISCONNECTING, MQTT_STATE_DISCONNECTED]
  | MQTT_STATE_DISCONNECTING => [MQTT_STATE_DISCONNECTED]

/-! ## Event dispatcher -/

/-- The fields of `struct mqtt_evt` read by the handler, by event type.  `MQTT_EVT_OTHER` stands
for the event types that fall to the `default` label (PUBREC, PUBREL, PUBCOMP, UNSUBACK). -/
inductive mqtt_evt where
  | MQTT_EVT_CONNACK (return_code : Nat)
  | MQTT_EVT_DISCONNECT (result : Int)
  | MQTT_EVT_PUBLISH (message_id : Nat) (topic : String) (qos : Nat) (payload_len : Nat)
  | MQTT_EVT_PUBACK (message_id : Nat) (result : Int)
  | MQTT_EVT_SUBACK (message_id : Nat) (result : Int)
  | MQTT_EVT_PINGRESP
  | MQTT_EVT_OTHER (type : Nat)
  deriving DecidableEq, Repr

/-- What the codec answers while one event is being dispatched: the return value of
`mqtt_readall_publish_payload` and of `mqtt_publish_qos1_ack`, should they be called. -/
structure CodecReply where
  readall_ret : Int
  ack_ret : Int
  deriving DecidableEq, Repr

/-- Function `publish_get_payload`: refuse a length above `sizeof(payload_buf)`, else read
`length` bytes from the codec and return its result. -/
def publish_get_payload (k : Kconfig) (length : Nat) (readall_ret : Int) (w : World) :
    Int × World :=
  if length > k.MQTT_PAYLOAD_BUFFER_LEN then
    (-EMSGSIZE, w)
  else
    (readall_ret, w.emit (.mqtt_readall_publish_payload length))

/-- Function `send_ack`: send the QoS 1 acknowledgment; its result only selects a log line. -/
def send_ack (message_id : Nat) (_ack_ret : Int) (w : World) : World :=
  w.emit (.mqtt_publish_qos1_ack message_id)

/-- Function `on_publish` of the module (the handler of `MQTT_EVT_PUBLISH`). -/
def on_publish (k : Kconfig) (message_id : Nat) (topic : String) (qos : Nat) (payload_len : Nat)
    (r : CodecReply) (w : World) : World :=
  let (err, w1) := publish_get_payload k payload_len r.readall_ret w
  if err ≠ 0 then
    if w1.current_cfg.on_error then
      w1.emit (.on_error .MQTT_HELPER_ERROR_MSG_SIZE)
    else
      w1
  else
    let w2 := if qos = MQTT_QOS_1_AT_LEAST_ONCE then send_ack message_id r.ack_ret w1 else w1
    if w2.current_cfg.on_publish then
      w2.emit (.on_publish topic payload_len)
    else
      w2

/-- Function `mqtt_evt_handler`. -/
def mqtt_evt_handler (k : Kconfig) (evt : mqtt_evt) (r : CodecReply) (w : World) :
    Except Fault World :=
  match evt with
  | .MQTT_EVT_CONNACK return_code =>
    match (if return_code = MQTT_CONNECTION_ACCEPTED then mqtt_state_set MQTT_STATE_CONNECTED w
           else mqtt_state_set MQTT_STATE_DISCONNECTED w) with
    | .error f => .error f
    | .ok w1 =>
      if w1.current_cfg.on_connack then .ok (w1.emit (.on_connack return_code)) else .ok w1
  | .MQTT_EVT_DISCONNECT result =>
    match mqtt_state_set MQTT_STATE_DISCONNECTED w with
    | .error f => .error f
    | .ok w1 =>
      if w1.current_cfg.on_disconnect then .ok (w1.emit (.on_disconnect result)) else .ok w1
  | .MQTT_EVT_PUBLISH message_id topic qos payload_len =>
    .ok (on_publish k message_id topic qos payload_len r w)
  | .MQTT_EVT_PUBACK message_id result =>
    if w.current_cfg.on_puback then .ok (w.emit (.on_puback message_id result)) else .ok w
  | .MQTT_EVT_SUBACK message_id result =>
    if w.current_cfg.on_suback then .ok (w.emit (.on_suback message_id result)) else .ok w
  | .MQTT_EVT_PINGRESP =>
    if w.current_cfg.on_pingresp then .ok (w.emit .on_pingresp) else .ok w
  | .MQTT_EVT_OTHER _ => .ok w

/-! ## Broker resolution and transport set-up -/

/-- What the collaborators answer during one `mqtt_helper_connect`: the return value and result
list of `getaddrinfo`, the return values of the three `tls_credential_add` calls, of
`mqtt_connect` and of `setsockopt`. -/
structure ConnectEnv where
  gai_err : Int
  gai_result : List addrinfo
  ca_ret : Int
  key_ret : Int
  cert_ret : Int
  connect_ret : Int
  setsockopt_ret : Int
  deriving DecidableEq, Repr

/-- Function `certificates_provision`. -/
def certificates_provision (k : Kconfig) (e : ConnectEnv) (w : World) : Int × World :=
  if !k.NET_SOCKETS_SOCKOPT_TLS || w.certs_added then
    (0, w)
  else
    let w1 := w.emit (.tls_credential_add TLS_CREDENTIAL_CA_CERTIFICATE)
    if e.ca_ret < 0 then (e.ca_ret, w1)
    else
      let w2 := w1.emit (.tls_credential_add TLS_CREDENTIAL_PRIVATE_KEY)
      if e.key_ret < 0 then (e.key_ret, w2)
      else
        let w3 := w2.emit (.tls_credential_add TLS_CREDENTIAL_SERVER_CERTIFICATE)
        if e.cert_ret < 0 then (e.cert_ret, w3)
        else (0, { w3 with certs_added := true })

/-- Function `broker_init`.  The body of its `while (addr != NULL)` loop ends in an unconditional
`break`, so only the head of the result list is ever examined.  The second component is
`*conn_params` after the call. -/
def broker_init (k : Kconfig) (conn_params : mqtt_helper_conn_params) (e : ConnectEnv)
    (w : World) : Int × mqtt_helper_conn_params × World :=
  let conn_params1 :=
    if k.STATIC_IP_ADDRESS.length + 1 > 1 then
      { conn_params with hostname := k.STATIC_IP_ADDRESS }
    else conn_params
  let w1 := w.emit (.getaddrinfo conn_params1.hostname)
  if e.gai_err ≠ 0 then
    (-e.gai_err, conn_params1, w1)
  else
    let w2 :=
      match e.gai_result with
      | [] => w1
      | addr :: _ =>
        if addr.ai_addrlen = SIZEOF_SOCKADDR_IN then
          { w1 with broker := { sin_addr := addr.s_addr, sin_family := AF_INET,
                                sin_port := htons k.PORT } }
        else w1
    (e.gai_err, conn_params1, w2.emit .freeaddrinfo)

/-- The codec function `mqtt_client_init` (external): it clears the handle and stores the default
protocol version. -/
def mqtt_client_init (w : World) : World :=
  { (w.emit .mqtt_client_init) with
    mqtt_client := { mqtt_client.zero with protocol_version := MQTT_VERSION_3_1_1 } }

/-- Function `client_broker_init`. -/
def client_broker_init (k : Kconfig) (conn_params : mqtt_helper_conn_params) (e : ConnectEnv)
    (w : World) : Int × World :=
  let sec_tag_list : List Int :=
    if k.SECONDARY_SEC_TAG > -1 then [k.SEC_TAG, k.SECONDARY_SEC_TAG] else [k.SEC_TAG]
  let w1 := mqtt_client_init w
  let (err, conn_params1, w2) := broker_init k conn_params e w1
  if err ≠ 0 then
    (err, w2)
  else
    let w3 : World :=
      { w2 with mqtt_client :=
          { broker_set := true
            evt_cb_set := true
            client_id := conn_params1.device_id
            password_set := false
            protocol_version := MQTT_VERSION_3_1_1
            rx_buf_size := k.MQTT_RX_TX_BUFFER_LEN
            tx_buf_size := k.MQTT_RX_TX_BUFFER_LEN
            transport_type := MQTT_TRANSPORT_SECURE
            user_name :=
              if conn_params1.user_name.length > 0 then some conn_params1.user_name else none
            tls :=
              { peer_verify := TLS_PEER_VERIFY_REQUIRED
                cipher_count := 0
                sec_tag_list := sec_tag_list
                session_cache := TLS_SESSION_CACHE_DISABLED
                hostname := conn_params1.hostname
                set_native_tls := k.NATIVE_TLS } } }
    if k.PROVISION_CERTIFICATES then
      let (err1, w4) := certificates_provision k e w3
      if err1 ≠ 0 then (err1, w4) else (0, w4)
    else
      (0, w3)

/-- Function `client_connect`.  After a successful `mqtt_connect` the value of `err` (the result
of `setsockopt`, reset to 0 when it is -1) is dead: the function ends in `return 0`. -/
def client_connect (k : Kconfig) (e : ConnectEnv) (w : World) : Int × World :=
  let w1 := w.emit .mqtt_connect
  if e.connect_ret ≠ 0 then
    (e.connect_ret, w1)
  else if k.SEND_TIMEOUT then
    let w2 := w1.emit (.setsockopt_sndtimeo k.SEND_TIMEOUT_SEC)
    let _err : Int := if e.setsockopt_ret = -1 then 0 else e.setsockopt_ret
    (0, w2)
  else
    (0, w1)

/-- Function `k_sem_give` on `connection_poll_sem`, whose limit is 1. -/
def k_sem_give (w : World) : World :=
  { (w.emit .k_sem_give) with
    connection_poll_sem := if w.connection_poll_sem < 1 then w.connection_poll_sem + 1
                           else w.connection_poll_sem }

/-! ## Public API -/

/-- Function `mqtt_helper_init`. -/
def mqtt_helper_init (cfg : mqtt_helper_cfg) (w : World) : Except Fault (Int × World) :=
  if !mqtt_state_verify MQTT_STATE_UNINIT w && !mqtt_state_verify MQTT_STATE_DISCONNECTED w then
    .ok (-EOPNOTSUPP, w)
  else
    let w1 := { w with current_cfg := cfg }
    match mqtt_state_set MQTT_STATE_DISCONNECTED w1 with
    | .error f => .error f
    | .ok w2 => .ok (0, w2)

/-- Function `mqtt_helper_connect`. -/
def mqtt_helper_connect (k : Kconfig) (conn_params : mqtt_helper_conn_params) (e : ConnectEnv)
    (w : World) : Except Fault (Int × World) :=
  if !mqtt_state_verify MQTT_STATE_DISCONNECTED w then
    .ok (-EOPNOTSUPP, w)
  else
    let (err, w1) := client_broker_init k conn_params e w
    if err ≠ 0 then
      .ok (err, w1)
    else
      match mqtt_state_set MQTT_STATE_CONNECTING w1 with
      | .error f => .error f
      | .ok w2 =>
        let (err1, w3) := client_connect k e w2
        if err1 ≠ 0 then
          match mqtt_state_set MQTT_STATE_DISCONNECTED w3 with
          | .error f => .error f
          | .ok w4 => .ok (err1, w4)
        else
          .ok (0, k_sem_give w3)

/-- Function `mqtt_helper_disconnect`; `disconnect_ret` is the result of `mqtt_disconnect`. -/
def mqtt_helper_disconnect (disconnect_ret : Int) (w : World) : Except Fault (Int × World) :=
  if !mqtt_state_verify MQTT_STATE_CONNECTED w then
    .ok (-EOPNOTSUPP, w)
  else
    match mqtt_state_set MQTT_STATE_DISCONNECTING w with
    | .error f => .error f
    | .ok w1 =>
      let w2 := w1.emit .mqtt_disconnect
      if disconnect_ret ≠ 0 then
        match mqtt_state_set MQTT_STATE_DISCONNECTED w2 with
        | .error f => .error f
        | .ok w3 =>
          if w3.current_cfg.on_disconnect then
            .ok (disconnect_ret, w3.emit (.on_disconnect disconnect_ret))
          else
            .ok (disconnect_ret, w3)
      else
        .ok (disconnect_ret, w2)

/-- Function `mqtt_helper_subscribe`; `subscribe_ret` is the result of `mqtt_subscribe`. -/
def mqtt_helper_subscribe (list_count : Nat) (subscribe_ret : Int) (w : World) : Int × World :=
  if !mqtt_state_verify MQTT_STATE_CONNECTED w then
    (-EOPNOTSUPP, w)
  else
    let w1 := w.emit (.mqtt_subscribe list_count)
    if subscribe_ret ≠ 0 then (subscribe_ret, w1) else (0, w1)

/-- Function `mqtt_helper_publish`; `publish_ret` is the result of `mqtt_publish`. -/
def mqtt_helper_publish (message_id : Nat) (publish_ret : Int) (w : World) : Int × World :=
  if !mqtt_state_verify MQTT_STATE_CONNECTED w then
    (-EOPNOTSUPP, w)
  else
    (publish_ret, w.emit (.mqtt_publish message_id))

/-- Function `mqtt_helper_deinit`. -/
def mqtt_helper_deinit (w : World) : Except Fault (Int × World) :=
  if !mqtt_state_verify MQTT_STATE_DISCONNECTED w then
    .ok (-EOPNOTSUPP, w)
  else
    let w1 := { w with current_cfg := mqtt_helper_cfg.zero, mqtt_client := mqtt_client.zero }
    match mqtt_state_set MQTT_STATE_UNINIT w1 with
    | .error f => .error f
    | .ok w2 => .ok (0, w2)

/-! ## Worker loop -/

/-- What the environment answers during one cycle of the `while (true)` loop of
`mqtt_helper_poll_loop`: the keepalive time left, the result of `poll` and the `revents` it
stores, the result of `mqtt_live`, the result of `mqtt_input` and the events the codec hands to
`mqtt_evt_handler` during that `mqtt_input` call. -/
structure PollCycle where
  time_left : Int
  poll_ret : Int
  revents : Nat
  live_ret : Int
  input_ret : Int
  events : List (mqtt_evt × CodecReply)
  deriving DecidableEq, Repr

/-- How one pass through the loop body ends: at a `break`, or by reaching the next pass. -/
inductive Flow where
  | break_loop (w : World)
  | next_cycle (w : World)
  deriving DecidableEq, Repr

/-- The codec dispatching a list of decoded events through `mqtt_evt_handler`, in order. -/
def dispatch_events (k : Kconfig) : List (mqtt_evt × CodecReply) → World → Except Fault World
  | [], w => .ok w
  | (evt, r) :: rest, w =>
    match mqtt_evt_handler k evt r w with
    | .error f => .error f
    | .ok w1 => dispatch_events k rest w1

/-- The codec function `mqtt_input` (external) as seen from this module: it dispatches the events
it decoded. -/
def mqtt_input (k : Kconfig) (events : List (mqtt_evt × CodecReply)) (w : World) :
    Except Fault World :=
  dispatch_events k events (w.emit .mqtt_input)

/-- The three trailing checks of the loop body on `POLLNVAL`, `POLLHUP` and `POLLERR`. -/
def poll_signal_checks (revents : Nat) (w : World) : Flow :=
  if revents &&& POLLNVAL = POLLNVAL then .break_loop w
  else if revents &&& POLLHUP = POLLHUP then .break_loop w
  else if revents &&& POLLERR = POLLERR then .break_loop w
  else .next_cycle w

/-- The body of the `while (true)` loop of `mqtt_helper_poll_loop` from the `poll` call on, that
is after the `MQTT_STATE_DISCONNECTING` check at its top. -/
def poll_loop_body (k : Kconfig) (c : PollCycle) (w : World) : Except Fault Flow :=
  let w1 := (w.emit .mqtt_keepalive_time_left).emit (.poll c.time_left)
  if c.poll_ret < 0 then
    .ok (.break_loop w1)
  else if c.poll_ret = 0 then
    let w2 := w1.emit .mqtt_live
    if c.live_ret ≠ 0 ∧ c.live_ret ≠ -EAGAIN then .ok (.break_loop w2) else .ok (.next_cycle w2)
  else if c.revents &&& POLLIN = POLLIN then
    match mqtt_input k c.events w1 with
    | .error f => .error f
    | .ok w2 =>
      if c.input_ret ≠ 0 ∧ c.input_ret = -ENOTCONN then
        .ok (.break_loop w2)
      else if mqtt_state_verify MQTT_STATE_DISCONNECTED w2 ||
              mqtt_state_verify MQTT_STATE_UNINIT w2 then
        .ok (.break_loop w2)
      else
        .ok (poll_signal_checks c.revents w2)
  else
    .ok (poll_signal_checks c.revents w1)

/-- How the `while (true)` loop stands once the environment answers are used up. -/
inductive WhileOutcome where
  /-- The loop was left through a `break`. -/
  | exited (w : World)
  /-- The loop is suspended in `poll`, no answer being left. -/
  | in_poll (w : World)
  /-- The illegal-transition assertion fired. -/
  | fault (f : Fault)
  deriving DecidableEq, Repr

/-- The `while (true)` loop of `mqtt_helper_poll_loop`, one `PollCycle` per pass. -/
def poll_loop_while (k : Kconfig) : List PollCycle → World → WhileOutcome
  | [], w =>
    if mqtt_state_verify MQTT_STATE_DISCONNECTING w then .exited w else .in_poll w
  | c :: cs, w =>
    if mqtt_state_verify MQTT_STATE_DISCONNECTING w then .exited w
    else
      match poll_loop_body k c w with
      | .error f => .fault f
      | .ok (.break_loop w1) => .exited w1
      | .ok (.next_cycle w1) => poll_loop_while k cs w1

/-- How a call of `mqtt_helper_poll_loop` stands once the environment answers are used up. -/
inductive LoopOutcome where
  /-- The function returned. -/
  | returned (w : World)
  /-- The function is suspended in `k_sem_take(&connection_poll_sem, K_FOREVER)`. -/
  | in_sem_take (w : World)
  /-- The function is suspended in `poll`. -/
  | in_poll (w : World)
  /-- The illegal-transition assertion fired. -/
  | fault (f : Fault)
  deriving DecidableEq, Repr

/-- The statement after the loop of `mqtt_helper_poll_loop`:
`mqtt_state_set(MQTT_STATE_DISCONNECTED)`. -/
def poll_loop_exit (w : World) : Except Fault World :=
  mqtt_state_set MQTT_STATE_DISCONNECTED w

/-- A `k_sem_take` on `connection_poll_sem` that finds the count above zero and lowers it. -/
def k_sem_take (w : World) : World :=
  { (w.emit .k_sem_take) with connection_poll_sem := w.connection_poll_sem - 1 }

/-- Function `mqtt_helper_poll_loop`.  With the semaphore count at zero the call stays in
`k_sem_take(&connection_poll_sem, K_FOREVER)`. -/
def mqtt_helper_poll_loop (k : Kconfig) (cs : List PollCycle) (w : World) : LoopOutcome :=
  if w.connection_poll_sem = 0 then
    .in_sem_take w
  else
    let w1 := k_sem_take w
    match poll_loop_while k cs w1 with
    | .fault f => .fault f
    | .in_poll w2 => .in_poll w2
    | .exited w2 =>
      match poll_loop_exit w2 with
      | .error f => .fault f
      | .ok w3 => .returned w3

/-! ## Steps of the system -/

/-- One call of the public API, with the answers of the collaborators it may consult. -/
inductive ApiCall where
  | init (cfg : mqtt_helper_cfg)
  | connect (conn_params : mqtt_helper_conn_params) (e : ConnectEnv)
  | disconnect (disconnect_ret : Int)
  | subscribe (list_count : Nat) (subscribe_ret : Int)
  | publish (message_id : Nat) (publish_ret : Int)
  | deinit
  deriving DecidableEq, Repr

/-- Perform one public API call. -/
def ApiCall.run (k : Kconfig) (c : ApiCall) (w : World) : Except Fault (Int × World) :=
  match c with
  | .init cfg => mqtt_helper_init cfg w
  | .connect conn_params e => mqtt_helper_connect k conn_params e w
  | .disconnect disconnect_ret => mqtt_helper_disconnect disconnect_ret w
  | .subscribe list_count subscribe_ret => .ok (mqtt_helper_subscribe list_count subscribe_ret w)
  | .publish message_id publish_ret => .ok (mqtt_helper_publish message_id publish_ret w)
  | .deinit => mqtt_helper_deinit w

/-- Perform a sequence of public API calls, collecting their return values. -/
def run_api (k : Kconfig) : List ApiCall → World → Except Fault (List Int × World)
  | [], w => .ok ([], w)
  | c :: cs, w =>
    match c.run k w with
    | .error f => .error f
    | .ok (ret, w1) =>
      match run_api k cs w1 with
      | .error f => .error f
      | .ok (rets, w2) => .ok (ret :: rets, w2)

/-- One state-changing step of the system: a public API call, the dispatch of one codec event, or
the exit of the worker loop. -/
inductive Step where
  | api (c : ApiCall)
  | event (evt : mqtt_evt) (r : CodecReply)
  | loop_exit
  deriving DecidableEq, Repr

/-- Perform one step. -/
def Step.run (k : Kconfig) (s : Step) (w : World) : Except Fault World :=
  match s with
  | .api c =>
    match c.run k w with
    | .error f => .error f
    | .ok (_, w1) => .ok w1
  | .event evt r => mqtt_evt_handler k evt r w
  | .loop_exit => poll_loop_exit w

/-! ## Specification vocabulary -/

/-- The world `w2` arises from `w1` by calls of external collaborators alone: connection state,
stored configuration and semaphore count are those of `w1`, and the trace of `w2` is the trace of
`w1` followed by external calls. -/
def World.calls_only (w1 w2 : World) : Prop :=
  w2.mqtt_state = w1.mqtt_state ∧ w2.current_cfg = w1.current_cfg ∧
  w2.connection_poll_sem = w1.connection_poll_sem ∧
  ∃ added, w2.trace = w1.trace ++ added ∧ ∀ a ∈ added, a.is_external_call = true

/-- Whether an action is the invocation of an application callback. -/
def Action.is_callback : Action → Bool
  | .on_connack _ => true
  | .on_disconnect _ => true
  | .on_publish _ _ => true
  | .on_puback _ _ => true
  | .on_suback _ _ => true
  | .on_pingresp => true
  | .on_error _ => true
  | _ => false

/-- For the invocation of a callback, whether the slot of that callback is set in `cfg`; `true`
for every action that is no callback invocation. -/
def Action.slot_set (cfg : mqtt_helper_cfg) : Action → Bool
  | .on_connack _ => cfg.on_connack
  | .on_disconnect _ => cfg.on_disconnect
  | .on_publish _ _ => cfg.on_publish
  | .on_puback _ _ => cfg.on_puback
  | .on_suback _ _ => cfg.on_suback
  | .on_pingresp => cfg.on_pingresp
  | .on_error _ => cfg.on_error
  | _ => true

/-- The world `w` with the stored configuration replaced by `cfg`. -/
def World.with_cfg (w : World) (cfg : mqtt_helper_cfg) : World :=
  { w with current_cfg := cfg }

/-- What a dispatch does apart from invoking callbacks: the fault it ends in, or else the
resulting connection state together with the actions of the trace that are no callback
invocations (state transitions, payload staging, acknowledgment sends). -/
def dispatch_effect (r : Except Fault World) : Except Fault (mqtt_state × List Action) :=
  match r with
  | .error f => .error f
  | .ok w => .ok (w.mqtt_state, w.trace.filter (fun a => !a.is_callback))

/-- The first matching lookup result in the words of the specification, section 4.2: the first
entry of the list whose address length is that of an IPv4 socket address. -/
def first_matching_result (result : List addrinfo) : Option addrinfo :=
  result.find? (fun addr => addr.ai_addrlen = SIZEOF_SOCKADDR_IN)

/-- The broker address the specification, section 4.2, asks for on a successful lookup: the
IPv4 address of the first matching result with the configured port attached. -/
def expected_broker (k : Kconfig) (result : List addrinfo) : Option sockaddr_in :=
  (first_matching_result result).map
    (fun addr => { sin_family := AF_INET, sin_port := htons k.PORT, sin_addr := addr.s_addr })

/-- A poll cycle in which `poll` fails. -/
def PollCycle.poll_error : PollCycle :=
  { time_left := 1000, poll_ret := -1, revents := 0, live_ret := 0, input_ret := 0,
    events := [] }

/-- A poll cycle in which the socket is readable and the codec decodes an accepted connect
acknowledgment. -/
def PollCycle.accepted_connack : PollCycle :=
  { time_left := 1000, poll_ret := 1, revents := 1, live_ret := 0, input_ret := 0,
    events := [(.MQTT_EVT_CONNACK 0, ⟨0, 0⟩)] }

/-! ## Sample inputs -/

/-- A build configuration with certificate provisioning and the send timeout enabled. -/
def Kconfig.sample : Kconfig :=
  { MQTT_PAYLOAD_BUFFER_LEN := 4, MQTT_RX_TX_BUFFER_LEN := 16, STATIC_IP_ADDRESS := "",
    PORT := 8883, SEC_TAG := 10, SECONDARY_SEC_TAG := -1, NATIVE_TLS := false,
    PROVISION_CERTIFICATES := true, NET_SOCKETS_SOCKOPT_TLS := true, SEND_TIMEOUT := true,
    SEND_TIMEOUT_SEC := 60 }

/-- A configuration with every callback slot set. -/
def mqtt_helper_cfg.all_set : mqtt_helper_cfg :=
  { on_connack := true, on_disconnect := true, on_publish := true, on_puback := true,
    on_suback := true, on_pingresp := true, on_error := true }

/-- The world at program start, moved to the given state with every callback slot set. -/
def World.in_state (s : AzureIotHubMqtt.mqtt_state) : World :=
  { World.boot with mqtt_state := s, current_cfg := mqtt_helper_cfg.all_set }

/-- Connection parameters of a sample device. -/
def mqtt_helper_conn_params.sample : mqtt_helper_conn_params :=
  { hostname := "hub", device_id := "dev", user_name := "" }

/-- Collaborator answers of a connect attempt in which everything succeeds except
`setsockopt`. -/
def ConnectEnv.all_ok : ConnectEnv :=
  { gai_err := 0, gai_result := [{ ai_addrlen := 8, s_addr := 16777343 }], ca_ret := 0,
    key_ret := 0, cert_ret := 0, connect_ret := 0, setsockopt_ret := -1 }

/-- Collaborator answers of a connect attempt whose address lookup fails with code -2. -/
def ConnectEnv.lookup_fails : ConnectEnv :=
  { ConnectEnv.all_ok with gai_err := -2, gai_result := [] }

/-- Collaborator answers of a connect attempt whose `mqtt_connect` fails with code -111. -/
def ConnectEnv.connect_fails : ConnectEnv :=
  { ConnectEnv.all_ok with connect_ret := -111 }

/-- A poll cycle in which `poll` reports the hang-up, invalid and error signals but not
readability. -/
def PollCycle.socket_gone : PollCycle :=
  { time_left := 1000, poll_ret := 1, revents := 56, live_ret := 0, input_ret := 0,
    events := [] }

/-- A poll cycle in which the keepalive deadline passes and the ping is not yet due. -/
def PollCycle.timeout_eagain : PollCycle :=
  { time_left := 0, poll_ret := 0, revents := 0, live_ret := -11, input_ret := 0,
    events := [] }

/-- A poll cycle in which the socket is readable and the codec decodes a publish
acknowledgment. -/
def PollCycle.readable_puback : PollCycle :=
  { time_left := 1000, poll_ret := 1, revents := 1, live_ret := 0, input_ret := 0,
    events := [(.MQTT_EVT_PUBACK 42 0, ⟨0, 0⟩)] }

/-- Collaborator answers of a connect attempt whose lookup, the hints being ignored, succeeds
with an IPv6-sized entry ahead of an IPv4-sized one. -/
def ConnectEnv.ipv6_first : ConnectEnv :=
  { gai_err := 0,
    gai_result := [{ ai_addrlen := 24, s_addr := 0 }, { ai_addrlen := 8, s_addr := 16777343 }],
    ca_ret := 0, key_ret := 0, cert_ret := 0, connect_ret := 0, setsockopt_ret := 0 }

/-! ## The state machine: legal transitions -/

/-- The legality switch of `mqtt_state_set` raises `notify_error` exactly off the table. -/
theorem notify_error_of_eq_false_iff (S T : mqtt_state) :
    notify_error_of S T = false ↔ T ∈ legal_set S := by
  cases S <;> cases T <;> simp [notify_error_of, legal_set]

@[simp] theorem World.transition_mqtt_state (w : World) (T : AzureIotHubMqtt.mqtt_state) :
    (w.transition T).mqtt_state = T := rfl

@[simp] theorem World.transition_trace (w : World) (T : AzureIotHubMqtt.mqtt_state) :
    (w.transition T).trace = w.trace ++ [.state_transition w.mqtt_state T] := rfl

@[simp] theorem World.transition_current_cfg (w : World) (T : AzureIotHubMqtt.mqtt_state) :
    (w.transition T).current_cfg = w.current_cfg := rfl

@[simp] theorem World.transition_sem (w : World) (T : AzureIotHubMqtt.mqtt_state) :
    (w.transition T).connection_poll_sem = w.connection_poll_sem := rfl

@[simp] theorem World.emit_mqtt_state (w : World) (a : Action) :
    (w.emit a).mqtt_state = w.mqtt_state := rfl

@[simp] theorem World.emit_trace (w : World) (a : Action) :
    (w.emit a).trace = w.trace ++ [a] := rfl

@[simp] theorem World.emit_current_cfg (w : World) (a : Action) :
    (w.emit a).current_cfg = w.current_cfg := rfl

@[simp] theorem World.emit_sem (w : World) (a : Action) :
    (w.emit a).connection_poll_sem = w.connection_poll_sem := rfl

/-- Closed form of `mqtt_state_set`. -/
theorem mqtt_state_set_eq (T : mqtt_state) (w : World) :
    mqtt_state_set T w =
      if T = w.mqtt_state then .ok w
      else if T ∈ legal_set w.mqtt_state then .ok (w.transition T)
      else .error (.illegal_transition w.mqtt_state T) := by
  unfold mqtt_state_set mqtt_state_get
  by_cases h : w.mqtt_state = T
  · simp [h]
  · have h' : ¬ T = w.mqtt_state := fun e => h e.symm
    by_cases hl : T ∈ legal_set w.mqtt_state
    · have := (notify_error_of_eq_false_iff w.mqtt_state T).2 hl
      simp [h, h', hl, this]
    · have : notify_error_of w.mqtt_state T = true := by
        cases hn : notify_error_of w.mqtt_state T
        · exact absurd ((notify_error_of_eq_false_iff _ _).1 hn) hl
        · rfl
      simp [h, h', hl, this]

/-- A transition from state `S` to a different, legal target. -/
theorem mqtt_state_set_from {S T : mqtt_state} {w : World} (hs : w.mqtt_state = S)
    (hne : T ≠ S) (hl : T ∈ legal_set S) :
    mqtt_state_set T w = .ok (w.transition T) := by
  subst hs
  rw [mqtt_state_set_eq, if_neg hne, if_pos hl]

/-- C1: with current state S, `mqtt_state_set(T)` completes without the illegal-transition fault
and leaves the state equal to T if and only if T = S or T is in the legal set of S; a same-state
request returns with nothing changed; and every other pair (S, T) ends in the illegal-transition
fault that names S and T. -/
theorem mqtt_state_set_accepts_iff_legal (T : mqtt_state) (w : World) :
    ((∃ w', mqtt_state_set T w = .ok w' ∧ w'.mqtt_state = T) ↔
        (T = w.mqtt_state ∨ T ∈ legal_set w.mqtt_state)) ∧
    (mqtt_state_set T w =
        if T = w.mqtt_state then .ok w
        else if T ∈ legal_set w.mqtt_state then
          .ok { w with mqtt_state := T,
                       trace := w.trace ++ [.state_transition w.mqtt_state T] }
        else .error (.illegal_transition w.mqtt_state T)) := by
  refine ⟨?_, mqtt_state_set_eq T w⟩
  rw [mqtt_state_set_eq]
  by_cases h : T = w.mqtt_state
  · simp [h]
  · by_cases hl : T ∈ legal_set w.mqtt_state
    · simp [h, hl]
    · simp [h, hl]

/-! ## Frame lemmas for the transport set-up -/

/-- The check `mqtt_state_verify` as a decision on the state field. -/
theorem mqtt_state_verify_eq (s : mqtt_state) (w : World) :
    mqtt_state_verify s w = decide (w.mqtt_state = s) := rfl

/-- Doing nothing is a (void) run of external calls. -/
theorem World.calls_only_refl (w : World) : w.calls_only w :=
  ⟨rfl, rfl, rfl, [], by simp, by simp⟩

/-- Runs of external calls compose. -/
theorem World.calls_only_trans {w1 w2 w3 : World} (h12 : w1.calls_only w2)
    (h23 : w2.calls_only w3) : w1.calls_only w3 := by
  obtain ⟨a1, a2, a3, l1, a4, a5⟩ := h12
  obtain ⟨b1, b2, b3, l2, b4, b5⟩ := h23
  refine ⟨b1.trans a1, b2.trans a2, b3.trans a3, l1 ++ l2, ?_, ?_⟩
  · rw [b4, a4, List.append_assoc]
  · intro a ha
    rcases List.mem_append.1 ha with h | h
    · exact a5 a h
    · exact b5 a h

/-- Recording one external call. -/
theorem World.calls_only_emit (w : World) (a : Action) (ha : a.is_external_call = true) :
    w.calls_only (w.emit a) :=
  ⟨rfl, rfl, rfl, [a], rfl, by simpa using ha⟩

/-- A world that differs from `w` in the handle, the broker address or the provisioning flag
only. -/
theorem World.calls_only_of_fields {w w2 : World} (h1 : w2.mqtt_state = w.mqtt_state)
    (h2 : w2.current_cfg = w.current_cfg)
    (h3 : w2.connection_poll_sem = w.connection_poll_sem) (h4 : w2.trace = w.trace) :
    w.calls_only w2 :=
  ⟨h1, h2, h3, [], by simp [h4], by simp⟩

/-- Function `certificates_provision` only calls the credential store. -/
theorem certificates_provision_frame (k : Kconfig) (e : ConnectEnv) (w : World) :
    w.calls_only (certificates_provision k e w).2 := by
  have e1 := World.calls_only_emit w (.tls_credential_add TLS_CREDENTIAL_CA_CERTIFICATE) rfl
  have e2 := World.calls_only_trans e1 (World.calls_only_emit _
    (.tls_credential_add TLS_CREDENTIAL_PRIVATE_KEY) rfl)
  have e3 := World.calls_only_trans e2 (World.calls_only_emit _
    (.tls_credential_add TLS_CREDENTIAL_SERVER_CERTIFICATE) rfl)
  unfold certificates_provision
  split_ifs
  · exact World.calls_only_refl w
  · exact e1
  · exact e2
  · exact e3
  · exact World.calls_only_trans e3 (World.calls_only_of_fields rfl rfl rfl rfl)

/-- Function `broker_init` only calls the resolver. -/
theorem broker_init_frame (k : Kconfig) (p : mqtt_helper_conn_params) (e : ConnectEnv)
    (w : World) : w.calls_only (broker_init k p e w).2.2 := by
  unfold broker_init
  by_cases hg : e.gai_err = 0
  · rcases hres : e.gai_result with _ | ⟨addr, rest⟩
    · simp only [hg, hres, ne_eq, not_true_eq_false, if_false]
      exact World.calls_only_trans (World.calls_only_emit _ (.getaddrinfo _) rfl)
        (World.calls_only_emit _ .freeaddrinfo rfl)
    · by_cases hl : addr.ai_addrlen = SIZEOF_SOCKADDR_IN
      · simp only [hg, hres, hl, ne_eq, not_true_eq_false, if_false, if_true]
        exact World.calls_only_trans (World.calls_only_emit _ (.getaddrinfo _) rfl)
          (World.calls_only_trans (World.calls_only_of_fields rfl rfl rfl rfl)
            (World.calls_only_emit _ .freeaddrinfo rfl))
      · simp only [hg, hres, hl, ne_eq, not_true_eq_false, if_false]
        exact World.calls_only_trans (World.calls_only_emit _ (.getaddrinfo _) rfl)
          (World.calls_only_emit _ .freeaddrinfo rfl)
  · simp only [hg, ne_eq, not_false_eq_true, if_true]
    exact World.calls_only_emit _ (.getaddrinfo _) rfl

/-- The return value of `broker_init`: the negated resolver code on a failed lookup, else 0. -/
theorem broker_init_ret (k : Kconfig) (p : mqtt_helper_conn_params) (e : ConnectEnv)
    (w : World) : (broker_init k p e w).1 = -e.gai_err := by
  unfold broker_init
  by_cases hg : e.gai_err = 0
  · simp [hg]
  · simp [hg]

/-- Function `client_broker_init` starts with `mqtt_client_init` and then only calls the resolver
and the credential store. -/
theorem client_broker_init_frame (k : Kconfig) (p : mqtt_helper_conn_params) (e : ConnectEnv)
    (w : World) :
    (w.emit .mqtt_client_init).calls_only (client_broker_init k p e w).2 := by
  have h0 : (w.emit .mqtt_client_init).calls_only (mqtt_client_init w) :=
    World.calls_only_of_fields rfl rfl rfl rfl
  have h1 := World.calls_only_trans h0 (broker_init_frame k p e (mqtt_client_init w))
  unfold client_broker_init
  simp only
  split_ifs <;>
    first
    | exact h1
    | exact World.calls_only_trans h1 (World.calls_only_of_fields rfl rfl rfl rfl)
    | exact World.calls_only_trans h1 (World.calls_only_trans
        (World.calls_only_of_fields rfl rfl rfl rfl) (certificates_provision_frame k e _))

/-- Function `client_connect` only calls the codec and the socket layer, `mqtt_connect` first. -/
theorem client_connect_frame (k : Kconfig) (e : ConnectEnv) (w : World) :
    (w.emit .mqtt_connect).calls_only (client_connect k e w).2 := by
  unfold client_connect
  simp only
  split_ifs
  · exact World.calls_only_refl _
  · exact World.calls_only_emit _ (.setsockopt_sndtimeo _) rfl
  · exact World.calls_only_refl _

/-- The return value of `client_connect` is that of `mqtt_connect`, whatever `setsockopt`
answers. -/
theorem client_connect_ret (k : Kconfig) (e : ConnectEnv) (w : World) :
    (client_connect k e w).1 = e.connect_ret := by
  unfold client_connect
  by_cases h : e.connect_ret = 0
  · simp only [h]; split_ifs <;> simp_all
  · simp [h]

/-- Function `certificates_provision` returns 0 when no `tls_credential_add` answers a negative
value. -/
theorem certificates_provision_ret_ok (k : Kconfig) (e : ConnectEnv) (w : World)
    (hc : 0 ≤ e.ca_ret ∧ 0 ≤ e.key_ret ∧ 0 ≤ e.cert_ret) :
    (certificates_provision k e w).1 = 0 := by
  obtain ⟨h1, h2, h3⟩ := hc
  unfold certificates_provision
  split_ifs <;> first | rfl | omega

/-- Function `client_broker_init` returns 0 when the lookup succeeds and no credential install
answers a negative value. -/
theorem client_broker_init_ret_ok (k : Kconfig) (p : mqtt_helper_conn_params) (e : ConnectEnv)
    (w : World) (hg : e.gai_err = 0) (hc : 0 ≤ e.ca_ret ∧ 0 ≤ e.key_ret ∧ 0 ≤ e.cert_ret) :
    (client_broker_init k p e w).1 = 0 := by
  unfold client_broker_init
  simp only [broker_init_ret, hg]
  split_ifs <;> first | rfl | simp_all [certificates_provision_ret_ok]

/-- Function `client_broker_init` returns the negated resolver code when the lookup fails. -/
theorem client_broker_init_ret_gai (k : Kconfig) (p : mqtt_helper_conn_params) (e : ConnectEnv)
    (w : World) (hg : e.gai_err ≠ 0) :
    (client_broker_init k p e w).1 = -e.gai_err := by
  unfold client_broker_init
  simp only [broker_init_ret]
  split_ifs <;> first | rfl | simp_all

/-! ## Closed forms of the public API -/

/-- Function `mqtt_helper_connect` called in state Disconnected, written out. -/
theorem mqtt_helper_connect_disconnected (k : Kconfig) (p : mqtt_helper_conn_params)
    (e : ConnectEnv) (w : World) (hs : w.mqtt_state = MQTT_STATE_DISCONNECTED) :
    mqtt_helper_connect k p e w =
      if (client_broker_init k p e w).1 ≠ 0 then
        .ok ((client_broker_init k p e w).1, (client_broker_init k p e w).2)
      else if e.connect_ret ≠ 0 then
        .ok (e.connect_ret,
          (client_connect k e
            ((client_broker_init k p e w).2.transition MQTT_STATE_CONNECTING)).2.transition
              MQTT_STATE_DISCONNECTED)
      else
        .ok (0, k_sem_give (client_connect k e
            ((client_broker_init k p e w).2.transition MQTT_STATE_CONNECTING)).2) := by
  have hcb : (client_broker_init k p e w).2.mqtt_state = MQTT_STATE_DISCONNECTED := by
    rw [(client_broker_init_frame k p e w).1]; exact hs
  have hset1 := mqtt_state_set_from (T := MQTT_STATE_CONNECTING) hcb (by decide) (by decide)
  unfold mqtt_helper_connect
  simp only [mqtt_state_verify_eq, hs, decide_True, Bool.not_true, Bool.false_eq_true, if_false]
  by_cases h1 : (client_broker_init k p e w).1 = 0
  · simp only [h1, ne_eq, not_true_eq_false, if_false, hset1, client_connect_ret]
    by_cases h2 : e.connect_ret = 0
    · simp only [h2, not_true_eq_false, if_false]
    · have hcc : (client_connect k e
          ((client_broker_init k p e w).2.transition MQTT_STATE_CONNECTING)).2.mqtt_state
          = MQTT_STATE_CONNECTING := by
        rw [(client_connect_frame k e _).1]; rfl
      have hset2 := mqtt_state_set_from (T := MQTT_STATE_DISCONNECTED) hcc (by decide)
        (by decide)
      simp only [h2, not_false_eq_true, if_true, hset2]
  · simp only [h1, ne_eq, not_false_eq_true, if_true]

/-- Function `mqtt_helper_connect` called in any other state is refused with nothing done. -/
theorem mqtt_helper_connect_rejected (k : Kconfig) (p : mqtt_helper_conn_params)
    (e : ConnectEnv) (w : World) (hs : w.mqtt_state ≠ MQTT_STATE_DISCONNECTED) :
    mqtt_helper_connect k p e w = .ok (-EOPNOTSUPP, w) := by
  unfold mqtt_helper_connect
  simp [mqtt_state_verify_eq, hs]

/-- Function `mqtt_helper_init`, written out. -/
theorem mqtt_helper_init_eq (cfg : mqtt_helper_cfg) (w : World) :
    mqtt_helper_init cfg w =
      if w.mqtt_state = MQTT_STATE_UNINIT then
        .ok (0, ({ w with current_cfg := cfg } : World).transition MQTT_STATE_DISCONNECTED)
      else if w.mqtt_state = MQTT_STATE_DISCONNECTED then
        .ok (0, { w with current_cfg := cfg })
      else .ok (-EOPNOTSUPP, w) := by
  rcases w with ⟨st, c, cl, b, sem, ca, tr⟩
  cases st <;>
    simp [mqtt_helper_init, mqtt_state_verify, mqtt_state_get, mqtt_state_set, notify_error_of]

/-- Function `mqtt_helper_deinit`, written out. -/
theorem mqtt_helper_deinit_eq (w : World) :
    mqtt_helper_deinit w =
      if w.mqtt_state = MQTT_STATE_DISCONNECTED then
        .ok (0, ({ w with current_cfg := mqtt_helper_cfg.zero,
                          mqtt_client := mqtt_client.zero } : World).transition
                  MQTT_STATE_UNINIT)
      else .ok (-EOPNOTSUPP, w) := by
  rcases w with ⟨st, c, cl, b, sem, ca, tr⟩
  cases st <;>
    simp [mqtt_helper_deinit, mqtt_state_verify, mqtt_state_get, mqtt_state_set, notify_error_of]

/-- Function `mqtt_helper_disconnect`, written out. -/
theorem mqtt_helper_disconnect_eq (disconnect_ret : Int) (w : World) :
    mqtt_helper_disconnect disconnect_ret w =
      if w.mqtt_state = MQTT_STATE_CONNECTED then
        if disconnect_ret ≠ 0 then
          if w.current_cfg.on_disconnect then
            .ok (disconnect_ret,
              ((((w.transition MQTT_STATE_DISCONNECTING).emit .mqtt_disconnect).transition
                MQTT_STATE_DISCONNECTED).emit (.on_disconnect disconnect_ret)))
          else
            .ok (disconnect_ret,
              (((w.transition MQTT_STATE_DISCONNECTING).emit .mqtt_disconnect).transition
                MQTT_STATE_DISCONNECTED))
        else
          .ok (disconnect_ret, (w.transition MQTT_STATE_DISCONNECTING).emit .mqtt_disconnect)
      else .ok (-EOPNOTSUPP, w) := by
  rcases w with ⟨st, c, cl, b, sem, ca, tr⟩
  by_cases h2 : disconnect_ret = 0 <;> by_cases h3 : c.on_disconnect = true <;> cases st <;>
    simp [mqtt_helper_disconnect, mqtt_state_verify, mqtt_state_get, mqtt_state_set,
      notify_error_of, World.emit, World.transition, h2, h3]

/-- Function `mqtt_helper_subscribe`, written out. -/
theorem mqtt_helper_subscribe_eq (list_count : Nat) (subscribe_ret : Int) (w : World) :
    mqtt_helper_subscribe list_count subscribe_ret w =
      if w.mqtt_state = MQTT_STATE_CONNECTED then
        (subscribe_ret, w.emit (.mqtt_subscribe list_count))
      else (-EOPNOTSUPP, w) := by
  unfold mqtt_helper_subscribe
  by_cases h1 : w.mqtt_state = MQTT_STATE_CONNECTED
  · by_cases h2 : subscribe_ret = 0
    · simp [mqtt_state_verify_eq, h1, h2]
    · simp [mqtt_state_verify_eq, h1, h2]
  · simp [mqtt_state_verify_eq, h1]

/-- Function `mqtt_helper_publish`, written out. -/
theorem mqtt_helper_publish_eq (message_id : Nat) (publish_ret : Int) (w : World) :
    mqtt_helper_publish message_id publish_ret w =
      if w.mqtt_state = MQTT_STATE_CONNECTED then
        (publish_ret, w.emit (.mqtt_publish message_id))
      else (-EOPNOTSUPP, w) := by
  unfold mqtt_helper_publish
  by_cases h1 : w.mqtt_state = MQTT_STATE_CONNECTED
  · simp [mqtt_state_verify_eq, h1]
  · simp [mqtt_state_verify_eq, h1]

@[simp] theorem k_sem_give_mqtt_state (w : World) :
    (k_sem_give w).mqtt_state = w.mqtt_state := rfl

@[simp] theorem k_sem_give_trace (w : World) :
    (k_sem_give w).trace = w.trace ++ [.k_sem_give] := rfl

/-- Function `client_broker_init` only calls the codec, the resolver and the credential
store. -/
theorem client_broker_init_calls_only (k : Kconfig) (p : mqtt_helper_conn_params)
    (e : ConnectEnv) (w : World) : w.calls_only (client_broker_init k p e w).2 :=
  World.calls_only_trans (World.calls_only_emit w .mqtt_client_init rfl)
    (client_broker_init_frame k p e w)

/-- External calls are neither semaphore operations nor state transitions. -/
theorem not_mem_of_external {l : List Action} (hl : ∀ a ∈ l, a.is_external_call = true) :
    Action.k_sem_give ∉ l ∧ ∀ S T, Action.state_transition S T ∉ l := by
  refine ⟨fun h => ?_, fun S T h => ?_⟩
  · have := hl _ h
    simp [Action.is_external_call] at this
  · have := hl _ h
    simp [Action.is_external_call] at this

/-- The trace of a successful `mqtt_helper_connect`, or of one whose `mqtt_connect` failed: the
calls of `client_broker_init`, the transition to Connecting, the calls of `client_connect`. -/
theorem connect_trace_upto_client_connect (k : Kconfig) (p : mqtt_helper_conn_params)
    (e : ConnectEnv) (w : World) (hs : w.mqtt_state = MQTT_STATE_DISCONNECTED) :
    (client_connect k e
      ((client_broker_init k p e w).2.transition MQTT_STATE_CONNECTING)).2.mqtt_state =
        MQTT_STATE_CONNECTING ∧
    (client_connect k e
      ((client_broker_init k p e w).2.transition MQTT_STATE_CONNECTING)).2.current_cfg =
        w.current_cfg ∧
    (client_connect k e
      ((client_broker_init k p e w).2.transition
        MQTT_STATE_CONNECTING)).2.connection_poll_sem = w.connection_poll_sem ∧
    ∃ pre post, (∀ a ∈ pre, a.is_external_call = true) ∧
      (∀ a ∈ post, a.is_external_call = true) ∧
      (client_connect k e
        ((client_broker_init k p e w).2.transition MQTT_STATE_CONNECTING)).2.trace =
        w.trace ++ (Action.mqtt_client_init :: pre ++
          [.state_transition MQTT_STATE_DISCONNECTED MQTT_STATE_CONNECTING, .mqtt_connect] ++
          post) := by
  obtain ⟨a1, a2, a3, l1, a4, a5⟩ := client_broker_init_frame k p e w
  obtain ⟨b1, b2, b3, l2, b4, b5⟩ := client_connect_frame k e
    ((client_broker_init k p e w).2.transition MQTT_STATE_CONNECTING)
  refine ⟨by rw [b1]; rfl, by rw [b2]; simpa using a2, by rw [b3]; simpa using a3,
    l1, l2, a5, b5, ?_⟩
  rw [b4]
  simp only [World.emit_trace, World.transition_trace, a4, a1, World.emit_mqtt_state, hs]
  simp

/-! ## What one public API call can do to the state -/

/-- An accepted `mqtt_state_set` leaves the requested state. -/
theorem mqtt_state_set_ok_state {T : mqtt_state} {w w' : World}
    (h : mqtt_state_set T w = .ok w') : w'.mqtt_state = T := by
  rw [mqtt_state_set_eq] at h
  split_ifs at h with h1 h2
  · cases h; exact h1.symm
  · cases h; rfl

/-- A request for Disconnected is accepted in every state. -/
theorem mqtt_state_set_disconnected_ok (w : World) :
    ∃ w', mqtt_state_set MQTT_STATE_DISCONNECTED w = .ok w' ∧
      w'.mqtt_state = MQTT_STATE_DISCONNECTED ∧ w'.current_cfg = w.current_cfg := by
  rcases w with ⟨st, c, cl, b, sem, ca, tr⟩
  cases st <;> simp [mqtt_state_set, mqtt_state_get, notify_error_of, World.transition]

/-- Every public API call, made in any state with any answers of the collaborators, returns
without the illegal-transition fault; it never moves the state to Connected; and each state
transition it logs is a legal one. -/
theorem ApiCall.run_spec (k : Kconfig) (c : ApiCall) (w : World) :
    ∃ ret w', c.run k w = .ok (ret, w') ∧
      (w'.mqtt_state = MQTT_STATE_CONNECTED → w.mqtt_state = MQTT_STATE_CONNECTED) ∧
      ∃ added, w'.trace = w.trace ++ added ∧
        ∀ S T, Action.state_transition S T ∈ added → T ∈ legal_set S ∧ T ≠ S := by
  cases c with
  | init cfg =>
    simp only [ApiCall.run, mqtt_helper_init_eq]
    split_ifs with h1 h2
    · exact ⟨_, _, rfl, by simp, [_], rfl, by simp [h1]; decide⟩
    · exact ⟨_, _, rfl, by simp [h2], [], by simp, by simp⟩
    · exact ⟨_, _, rfl, id, [], by simp, by simp⟩
  | connect p e =>
    simp only [ApiCall.run]
    by_cases hs : w.mqtt_state = MQTT_STATE_DISCONNECTED
    · obtain ⟨a1, a2, a3, l1, a4, a5⟩ := client_broker_init_calls_only k p e w
      obtain ⟨c1, c2, c3, l2, l3, hl2, hl3, ht⟩ := connect_trace_upto_client_connect k p e w hs
      have n1 := (not_mem_of_external a5).2
      have n2 := (not_mem_of_external hl2).2
      have n3 := (not_mem_of_external hl3).2
      rw [mqtt_helper_connect_disconnected k p e w hs]
      split_ifs with h1 h2
      · exact ⟨_, _, rfl, by rw [a1, hs]; simp, l1, a4, fun S T h => absurd h (n1 S T)⟩
      · refine ⟨_, _, rfl, by simp, _, by rw [World.transition_trace, ht, c1,
          List.append_assoc], ?_⟩
        intro S T h
        simp only [List.cons_append, List.append_assoc, List.singleton_append, List.mem_cons,
          List.mem_append, List.mem_singleton, Action.state_transition.injEq, false_and,
          false_or, reduceCtorEq, or_false, List.not_mem_nil] at h
        rcases h with h | ⟨rfl, rfl⟩ | h | ⟨rfl, rfl⟩
        · exact absurd h (n2 S T)
        · decide
        · exact absurd h (n3 S T)
        · decide
      · refine ⟨_, _, rfl, by rw [k_sem_give_mqtt_state, c1]; simp, _,
          by rw [k_sem_give_trace, ht, List.append_assoc], ?_⟩
        intro S T h
        simp only [List.cons_append, List.append_assoc, List.singleton_append, List.mem_cons,
          List.mem_append, List.mem_singleton, Action.state_transition.injEq, false_and,
          false_or, reduceCtorEq, or_false, List.not_mem_nil] at h
        rcases h with h | ⟨rfl, rfl⟩ | h
        · exact absurd h (n2 S T)
        · decide
        · exact absurd h (n3 S T)
    · rw [mqtt_helper_connect_rejected k p e w hs]
      exact ⟨_, _, rfl, id, [], by simp, by simp⟩
  | disconnect disconnect_ret =>
    simp only [ApiCall.run, mqtt_helper_disconnect_eq]
    split_ifs with h1 h2 h3
    · refine ⟨_, _, rfl, by simp, [.state_transition MQTT_STATE_CONNECTED
        MQTT_STATE_DISCONNECTING, .mqtt_disconnect, .state_transition MQTT_STATE_DISCONNECTING
        MQTT_STATE_DISCONNECTED, .on_disconnect disconnect_ret], by simp [h1], ?_⟩
      intro S T h
      simp at h
      rcases h with ⟨rfl, rfl⟩ | ⟨rfl, rfl⟩ <;> decide
    · refine ⟨_, _, rfl, by simp, [.state_transition MQTT_STATE_CONNECTED
        MQTT_STATE_DISCONNECTING, .mqtt_disconnect, .state_transition MQTT_STATE_DISCONNECTING
        MQTT_STATE_DISCONNECTED], by simp [h1], ?_⟩
      intro S T h
      simp at h
      rcases h with ⟨rfl, rfl⟩ | ⟨rfl, rfl⟩ <;> decide
    · refine ⟨_, _, rfl, by simp, [.state_transition MQTT_STATE_CONNECTED
        MQTT_STATE_DISCONNECTING, .mqtt_disconnect], by simp [h1], ?_⟩
      intro S T h
      simp at h
      rcases h with ⟨rfl, rfl⟩
      decide
    · exact ⟨_, _, rfl, id, [], by simp, by simp⟩
  | subscribe list_count subscribe_ret =>
    simp only [ApiCall.run, mqtt_helper_subscribe_eq]
    split_ifs with h1
    · exact ⟨_, _, rfl, by simp, [_], rfl, by simp⟩
    · exact ⟨_, _, rfl, id, [], by simp, by simp⟩
  | publish message_id publish_ret =>
    simp only [ApiCall.run, mqtt_helper_publish_eq]
    split_ifs with h1
    · exact ⟨_, _, rfl, by simp, [_], rfl, by simp⟩
    · exact ⟨_, _, rfl, id, [], by simp, by simp⟩
  | deinit =>
    simp only [ApiCall.run, mqtt_helper_deinit_eq]
    split_ifs with h1
    · exact ⟨_, _, rfl, by simp, [_], rfl, by simp [h1]; decide⟩
    · exact ⟨_, _, rfl, id, [], by simp, by simp⟩

/-! ## Claims on the public API -/

/-- C2: the state guards of the public API.  `mqtt_helper_connect` returns `-EOPNOTSUPP` with
nothing done when the state is not Disconnected, and in Disconnected goes past the guard (its
first action, `mqtt_client_init`, is performed); `mqtt_helper_subscribe`, `mqtt_helper_publish`
and `mqtt_helper_disconnect` return `-EOPNOTSUPP` with nothing done when the state is not
Connected, and in Connected go past the guard (the codec is called, and the value returned is
the one the codec gave); `mqtt_helper_deinit` returns `-EOPNOTSUPP` with nothing done when the
state is not Disconnected and returns 0 when it is. -/
theorem api_state_guards (k : Kconfig) (p : mqtt_helper_conn_params) (e : ConnectEnv)
    (disconnect_ret : Int) (list_count : Nat) (subscribe_ret : Int) (message_id : Nat)
    (publish_ret : Int) (w : World) :
    (w.mqtt_state ≠ MQTT_STATE_DISCONNECTED →
      mqtt_helper_connect k p e w = .ok (-EOPNOTSUPP, w)) ∧
    (w.mqtt_state = MQTT_STATE_DISCONNECTED →
      ∃ ret w' rest, mqtt_helper_connect k p e w = .ok (ret, w') ∧
        w'.trace = w.trace ++ Action.mqtt_client_init :: rest) ∧
    (w.mqtt_state ≠ MQTT_STATE_CONNECTED →
      mqtt_helper_subscribe list_count subscribe_ret w = (-EOPNOTSUPP, w)) ∧
    (w.mqtt_state = MQTT_STATE_CONNECTED →
      mqtt_helper_subscribe list_count subscribe_ret w =
        (subscribe_ret, w.emit (.mqtt_subscribe list_count))) ∧
    (w.mqtt_state ≠ MQTT_STATE_CONNECTED →
      mqtt_helper_publish message_id publish_ret w = (-EOPNOTSUPP, w)) ∧
    (w.mqtt_state = MQTT_STATE_CONNECTED →
      mqtt_helper_publish message_id publish_ret w =
        (publish_ret, w.emit (.mqtt_publish message_id))) ∧
    (w.mqtt_state ≠ MQTT_STATE_CONNECTED →
      mqtt_helper_disconnect disconnect_ret w = .ok (-EOPNOTSUPP, w)) ∧
    (w.mqtt_state = MQTT_STATE_CONNECTED →
      ∃ w' rest, mqtt_helper_disconnect disconnect_ret w = .ok (disconnect_ret, w') ∧
        w'.trace = w.trace ++
          Action.state_transition MQTT_STATE_CONNECTED MQTT_STATE_DISCONNECTING ::
          Action.mqtt_disconnect :: rest) ∧
    (w.mqtt_state ≠ MQTT_STATE_DISCONNECTED →
      mqtt_helper_deinit w = .ok (-EOPNOTSUPP, w)) ∧
    (w.mqtt_state = MQTT_STATE_DISCONNECTED →
      ∃ w', mqtt_helper_deinit w = .ok (0, w') ∧ w'.mqtt_state = MQTT_STATE_UNINIT) := by
  refine ⟨mqtt_helper_connect_rejected k p e w, ?_, ?_, ?_, ?_, ?_, ?_, ?_, ?_, ?_⟩
  · intro hs
    obtain ⟨_, _, _, l1, ht1, _⟩ := client_broker_init_frame k p e w
    obtain ⟨_, _, _, pre, post, _, _, ht2⟩ := connect_trace_upto_client_connect k p e w hs
    rw [mqtt_helper_connect_disconnected k p e w hs]
    by_cases h1 : (client_broker_init k p e w).1 = 0
    · by_cases h2 : e.connect_ret = 0
      · simp only [h1, h2, ne_eq, not_true_eq_false, if_false]
        exact ⟨_, _, pre ++ [.state_transition MQTT_STATE_DISCONNECTED MQTT_STATE_CONNECTING,
          .mqtt_connect] ++ post ++ [.k_sem_give], rfl, by rw [k_sem_give_trace, ht2]; simp⟩
      · simp only [h1, h2, ne_eq, not_true_eq_false, if_false, not_false_eq_true, if_true]
        exact ⟨_, _, pre ++ [.state_transition MQTT_STATE_DISCONNECTED MQTT_STATE_CONNECTING,
          .mqtt_connect] ++ post ++ [.state_transition
            (client_connect k e ((client_broker_init k p e w).2.transition
              MQTT_STATE_CONNECTING)).2.mqtt_state MQTT_STATE_DISCONNECTED], rfl,
          by rw [World.transition_trace, ht2]; simp⟩
    · simp only [h1, ne_eq, not_false_eq_true, if_true]
      exact ⟨_, _, l1, rfl, by rw [ht1]; simp⟩
  · intro hs; simp [mqtt_helper_subscribe_eq, hs]
  · intro hs; simp [mqtt_helper_subscribe_eq, hs]
  · intro hs; simp [mqtt_helper_publish_eq, hs]
  · intro hs; simp [mqtt_helper_publish_eq, hs]
  · intro hs; simp [mqtt_helper_disconnect_eq, hs]
  · intro hs
    rw [mqtt_helper_disconnect_eq, if_pos hs]
    by_cases h2 : disconnect_ret = 0
    · simp only [ne_eq, h2, not_true_eq_false, if_false]
      exact ⟨_, [], rfl, by simp [hs]⟩
    · by_cases h3 : w.current_cfg.on_disconnect = true
      · simp only [ne_eq, h2, not_false_eq_true, if_true, h3]
        exact ⟨_, [.state_transition MQTT_STATE_DISCONNECTING MQTT_STATE_DISCONNECTED,
          .on_disconnect disconnect_ret], rfl, by simp [hs]⟩
      · simp only [ne_eq, h2, not_false_eq_true, if_true, h3]
        exact ⟨_, [.state_transition MQTT_STATE_DISCONNECTING MQTT_STATE_DISCONNECTED], rfl,
          by simp [hs]⟩
  · intro hs; simp [mqtt_helper_deinit_eq, hs]
  · intro hs; simp [mqtt_helper_deinit_eq, hs]

/-- C4: a call of `mqtt_helper_connect` in state Disconnected in which `client_broker_init`
(broker resolution and credential provisioning) and `mqtt_connect` succeed returns 0, leaves the
state Connecting and gives `connection_poll_sem` exactly once; the answer of `setsockopt` has no
influence on any of this. -/
theorem mqtt_helper_connect_success (k : Kconfig) (p : mqtt_helper_conn_params)
    (e : ConnectEnv) (w : World) (hs : w.mqtt_state = MQTT_STATE_DISCONNECTED)
    (hinit : (client_broker_init k p e w).1 = 0) (hconn : e.connect_ret = 0) :
    (∃ w' added, mqtt_helper_connect k p e w = .ok (0, w') ∧
      w'.mqtt_state = MQTT_STATE_CONNECTING ∧
      w'.trace = w.trace ++ added ∧ added.count .k_sem_give = 1) ∧
    ∀ r : Int, mqtt_helper_connect k p { e with setsockopt_ret := r } w =
      mqtt_helper_connect k p e w := by
  refine ⟨?_, fun r => rfl⟩
  obtain ⟨c1, _, _, pre, post, hpre, hpost, ht⟩ := connect_trace_upto_client_connect k p e w hs
  rw [mqtt_helper_connect_disconnected k p e w hs]
  simp only [hinit, hconn, ne_eq, not_true_eq_false, if_false]
  refine ⟨_, _, rfl, by simpa using c1, by rw [k_sem_give_trace, ht, List.append_assoc], ?_⟩
  have h1 := List.count_eq_zero.2 (not_mem_of_external hpre).1
  have h2 := List.count_eq_zero.2 (not_mem_of_external hpost).1
  simp [List.count_cons, h1, h2]

/-- C4 at a concrete input: a connect whose `setsockopt` fails. -/
theorem mqtt_helper_connect_success_witness :
    (∃ w' added, mqtt_helper_connect Kconfig.sample mqtt_helper_conn_params.sample
        ConnectEnv.all_ok (World.in_state MQTT_STATE_DISCONNECTED) = .ok (0, w') ∧
      w'.mqtt_state = MQTT_STATE_CONNECTING ∧
      w'.trace = (World.in_state MQTT_STATE_DISCONNECTED).trace ++ added ∧
      added.count .k_sem_give = 1) ∧
    ∀ r : Int, mqtt_helper_connect Kconfig.sample mqtt_helper_conn_params.sample
        { ConnectEnv.all_ok with setsockopt_ret := r } (World.in_state MQTT_STATE_DISCONNECTED) =
      mqtt_helper_connect Kconfig.sample mqtt_helper_conn_params.sample ConnectEnv.all_ok
        (World.in_state MQTT_STATE_DISCONNECTED) :=
  mqtt_helper_connect_success Kconfig.sample mqtt_helper_conn_params.sample ConnectEnv.all_ok
    (World.in_state MQTT_STATE_DISCONNECTED) rfl
    (client_broker_init_ret_ok _ _ _ _ rfl (by decide)) rfl

/-- C5: a failing `mqtt_helper_connect` called in state Disconnected.  The call never faults.
When the address lookup fails the call returns the (negated) resolver code, which is nonzero,
and performs external calls only, so the state stays Disconnected throughout.  When
`client_broker_init` succeeded and `mqtt_connect` fails the call returns the code of
`mqtt_connect` and the state, set to Connecting before `mqtt_connect`, is set back to
Disconnected.  Whenever the value returned is nonzero the state on return is Disconnected and
`connection_poll_sem` has not been given. -/
theorem mqtt_helper_connect_failure (k : Kconfig) (p : mqtt_helper_conn_params)
    (e : ConnectEnv) (w : World) (hs : w.mqtt_state = MQTT_STATE_DISCONNECTED) :
    (∃ ret w', mqtt_helper_connect k p e w = .ok (ret, w')) ∧
    (e.gai_err ≠ 0 →
      ∃ w' added, mqtt_helper_connect k p e w = .ok (-e.gai_err, w') ∧ -e.gai_err ≠ 0 ∧
        w'.mqtt_state = MQTT_STATE_DISCONNECTED ∧ w'.trace = w.trace ++ added ∧
        ∀ a ∈ added, a.is_external_call = true) ∧
    ((client_broker_init k p e w).1 = 0 → e.connect_ret ≠ 0 →
      ∃ w' pre post, mqtt_helper_connect k p e w = .ok (e.connect_ret, w') ∧
        w'.mqtt_state = MQTT_STATE_DISCONNECTED ∧
        (∀ a ∈ pre, a.is_external_call = true) ∧ (∀ a ∈ post, a.is_external_call = true) ∧
        w'.trace = w.trace ++ (pre ++
          [.state_transition MQTT_STATE_DISCONNECTED MQTT_STATE_CONNECTING] ++ post ++
          [.state_transition MQTT_STATE_CONNECTING MQTT_STATE_DISCONNECTED])) ∧
    (∀ ret w', mqtt_helper_connect k p e w = .ok (ret, w') → ret ≠ 0 →
      w'.mqtt_state = MQTT_STATE_DISCONNECTED ∧
      w'.connection_poll_sem = w.connection_poll_sem ∧
      ∃ added, w'.trace = w.trace ++ added ∧ Action.k_sem_give ∉ added) := by
  obtain ⟨a1, a2, a3, l1, a4, a5⟩ := client_broker_init_calls_only k p e w
  obtain ⟨c1, c2, c3, pre, post, hpre, hpost, ht⟩ :=
    connect_trace_upto_client_connect k p e w hs
  have hform := mqtt_helper_connect_disconnected k p e w hs
  refine ⟨?_, ?_, ?_, ?_⟩
  · rw [hform]
    split_ifs <;> exact ⟨_, _, rfl⟩
  · intro hg
    have hr := client_broker_init_ret_gai k p e w hg
    have hne : -e.gai_err ≠ 0 := by omega
    rw [hform, if_pos (by rw [hr]; exact hne), hr]
    exact ⟨_, l1, rfl, hne, a1.trans hs, a4, a5⟩
  · intro hi hc
    rw [hform, if_neg (by simp [hi]), if_pos hc]
    refine ⟨_, Action.mqtt_client_init :: pre, Action.mqtt_connect :: post, rfl, rfl, ?_, ?_, ?_⟩
    · intro a ha
      rcases List.mem_cons.1 ha with h | h
      · subst h; rfl
      · exact hpre a h
    · intro a ha
      rcases List.mem_cons.1 ha with h | h
      · subst h; rfl
      · exact hpost a h
    · rw [World.transition_trace, ht, c1]
      simp
  · intro ret w' hrun hret
    rw [hform] at hrun
    by_cases hi : (client_broker_init k p e w).1 = 0
    · by_cases hc : e.connect_ret = 0
      · simp only [hi, hc, ne_eq, not_true_eq_false, if_false, Except.ok.injEq,
          Prod.mk.injEq] at hrun
        exact absurd hrun.1.symm hret
      · simp only [hi, hc, ne_eq, not_true_eq_false, if_false, not_false_eq_true, if_true,
          Except.ok.injEq, Prod.mk.injEq] at hrun
        obtain ⟨_, rfl⟩ := hrun
        refine ⟨rfl, by simpa using c3, _, by rw [World.transition_trace, ht, c1,
          List.append_assoc], ?_⟩
        have n1 := (not_mem_of_external hpre).1
        have n2 := (not_mem_of_external hpost).1
        simp [n1, n2]
    · simp only [hi, ne_eq, not_false_eq_true, if_true, Except.ok.injEq, Prod.mk.injEq] at hrun
      obtain ⟨_, rfl⟩ := hrun
      exact ⟨a1.trans hs, a3, l1, a4, (not_mem_of_external a5).1⟩

/-- C5 at a concrete input: a lookup failing with code -2 makes the call return 2 in state
Disconnected. -/
theorem mqtt_helper_connect_failure_witness :
    ∃ w' added, mqtt_helper_connect Kconfig.sample mqtt_helper_conn_params.sample
        ConnectEnv.lookup_fails (World.in_state MQTT_STATE_DISCONNECTED) = .ok (2, w') ∧
      (2 : Int) ≠ 0 ∧ w'.mqtt_state = MQTT_STATE_DISCONNECTED ∧
      w'.trace = (World.in_state MQTT_STATE_DISCONNECTED).trace ++ added ∧
      ∀ a ∈ added, a.is_external_call = true :=
  (mqtt_helper_connect_failure Kconfig.sample mqtt_helper_conn_params.sample
    ConnectEnv.lookup_fails (World.in_state MQTT_STATE_DISCONNECTED) rfl).2.1 (by decide)

/-! ## Claims on the event dispatcher -/

/-- C6: a connect acknowledgment dispatched in state Connecting.  The handler does not fault;
the state becomes Connected when the return code is `MQTT_CONNECTION_ACCEPTED` and Disconnected
for every other return code; and `on_connack`, when its slot is set, is invoked exactly once,
with that return code, after the state transition (when the slot is unset, nothing else
happens). -/
theorem mqtt_evt_handler_connack_in_connecting (k : Kconfig) (return_code : Nat)
    (r : CodecReply) (w : World) (hs : w.mqtt_state = MQTT_STATE_CONNECTING) :
    ∃ w', mqtt_evt_handler k (.MQTT_EVT_CONNACK return_code) r w = .ok w' ∧
      w'.mqtt_state = (if return_code = MQTT_CONNECTION_ACCEPTED then MQTT_STATE_CONNECTED
                       else MQTT_STATE_DISCONNECTED) ∧
      w'.trace = w.trace ++
        [.state_transition MQTT_STATE_CONNECTING
          (if return_code = MQTT_CONNECTION_ACCEPTED then MQTT_STATE_CONNECTED
           else MQTT_STATE_DISCONNECTED)] ++
        (if w.current_cfg.on_connack then [.on_connack return_code] else []) := by
  have s1 := mqtt_state_set_from (T := MQTT_STATE_CONNECTED) hs (by decide) (by decide)
  have s2 := mqtt_state_set_from (T := MQTT_STATE_DISCONNECTED) hs (by decide) (by decide)
  unfold mqtt_evt_handler
  by_cases hrc : return_code = MQTT_CONNECTION_ACCEPTED <;>
    by_cases hcb : w.current_cfg.on_connack = true <;>
    simp [hrc, hcb, s1, s2, hs]

/-- C6 at a concrete input: an accepted connack with every callback slot set. -/
theorem mqtt_evt_handler_connack_in_connecting_witness :
    ∃ w', mqtt_evt_handler Kconfig.sample (.MQTT_EVT_CONNACK 0) ⟨0, 0⟩
        (World.in_state MQTT_STATE_CONNECTING) = .ok w' ∧
      w'.mqtt_state = (if 0 = MQTT_CONNECTION_ACCEPTED then MQTT_STATE_CONNECTED
                       else MQTT_STATE_DISCONNECTED) ∧
      w'.trace = (World.in_state MQTT_STATE_CONNECTING).trace ++
        [.state_transition MQTT_STATE_CONNECTING
          (if 0 = MQTT_CONNECTION_ACCEPTED then MQTT_STATE_CONNECTED
           else MQTT_STATE_DISCONNECTED)] ++
        (if (World.in_state MQTT_STATE_CONNECTING).current_cfg.on_connack
         then [.on_connack 0] else []) :=
  mqtt_evt_handler_connack_in_connecting Kconfig.sample 0 ⟨0, 0⟩
    (World.in_state MQTT_STATE_CONNECTING) rfl

/-- C8: an inbound publish whose declared payload length exceeds `sizeof(payload_buf)`.  The
handler does nothing but invoke `on_error(MQTT_HELPER_ERROR_MSG_SIZE)` once when that slot is
set, and nothing at all when it is unset: no payload read, no acknowledgment whatever the QoS,
no `on_publish`. -/
theorem mqtt_evt_handler_publish_too_large (k : Kconfig) (message_id : Nat) (topic : String)
    (qos payload_len : Nat) (r : CodecReply) (w : World)
    (hlen : k.MQTT_PAYLOAD_BUFFER_LEN < payload_len) :
    mqtt_evt_handler k (.MQTT_EVT_PUBLISH message_id topic qos payload_len) r w =
      .ok (if w.current_cfg.on_error then w.emit (.on_error .MQTT_HELPER_ERROR_MSG_SIZE)
           else w) := by
  have hne : -EMSGSIZE ≠ 0 := by decide
  unfold mqtt_evt_handler on_publish publish_get_payload
  by_cases hcb : w.current_cfg.on_error = true <;> simp [hlen, hne, hcb]

/-- C8 at a concrete input: five bytes declared for a four-byte buffer, QoS 1. -/
theorem mqtt_evt_handler_publish_too_large_witness :
    mqtt_evt_handler Kconfig.sample (.MQTT_EVT_PUBLISH 7 "t" 1 5) ⟨0, 0⟩
        (World.in_state MQTT_STATE_CONNECTED) =
      .ok (if (World.in_state MQTT_STATE_CONNECTED).current_cfg.on_error
           then (World.in_state MQTT_STATE_CONNECTED).emit
             (.on_error .MQTT_HELPER_ERROR_MSG_SIZE)
           else World.in_state MQTT_STATE_CONNECTED) :=
  mqtt_evt_handler_publish_too_large Kconfig.sample 7 "t" 1 5 ⟨0, 0⟩
    (World.in_state MQTT_STATE_CONNECTED) (by decide)

/-- C9: an inbound publish whose payload is staged (the declared length fits the buffer and the
payload read returns 0).  After the payload read the handler sends exactly one acknowledgment,
carrying the message id of the publish, when the QoS is 1 and none otherwise; then, the
`on_publish` slot being set, it invokes `on_publish` once with the topic of the event and a
payload of the declared length.  The connection state is untouched. -/
theorem mqtt_evt_handler_publish_staged (k : Kconfig) (message_id : Nat) (topic : String)
    (qos payload_len : Nat) (r : CodecReply) (w : World)
    (hlen : payload_len ≤ k.MQTT_PAYLOAD_BUFFER_LEN) (hread : r.readall_ret = 0) :
    ∃ w', mqtt_evt_handler k (.MQTT_EVT_PUBLISH message_id topic qos payload_len) r w = .ok w' ∧
      w'.mqtt_state = w.mqtt_state ∧
      w'.trace = w.trace ++ [.mqtt_readall_publish_payload payload_len] ++
        (if qos = MQTT_QOS_1_AT_LEAST_ONCE then [.mqtt_publish_qos1_ack message_id] else []) ++
        (if w.current_cfg.on_publish then [.on_publish topic payload_len] else []) := by
  have hl : ¬ payload_len > k.MQTT_PAYLOAD_BUFFER_LEN := by omega
  unfold mqtt_evt_handler on_publish publish_get_payload send_ack
  by_cases hq : qos = MQTT_QOS_1_AT_LEAST_ONCE <;>
    by_cases hcb : w.current_cfg.on_publish = true <;>
    simp [hl, hread, hq, hcb]

/-- C9 at a concrete input: a QoS 1 publish of exactly the buffer capacity. -/
theorem mqtt_evt_handler_publish_staged_witness :
    ∃ w', mqtt_evt_handler Kconfig.sample (.MQTT_EVT_PUBLISH 7 "t" 1 4) ⟨0, -5⟩
        (World.in_state MQTT_STATE_CONNECTED) = .ok w' ∧
      w'.mqtt_state = (World.in_state MQTT_STATE_CONNECTED).mqtt_state ∧
      w'.trace = (World.in_state MQTT_STATE_CONNECTED).trace ++
        [.mqtt_readall_publish_payload 4] ++
        (if 1 = MQTT_QOS_1_AT_LEAST_ONCE then [.mqtt_publish_qos1_ack 7] else []) ++
        (if (World.in_state MQTT_STATE_CONNECTED).current_cfg.on_publish
         then [.on_publish "t" 4] else []) :=
  mqtt_evt_handler_publish_staged Kconfig.sample 7 "t" 1 4 ⟨0, -5⟩
    (World.in_state MQTT_STATE_CONNECTED) (by decide) rfl

/-- C10: no sequence of public API calls triggers the illegal-transition fault.  From every
state (Uninitialized in particular), every finite sequence of calls of `mqtt_helper_init`,
`mqtt_helper_connect`, `mqtt_helper_disconnect`, `mqtt_helper_subscribe`, `mqtt_helper_publish`
and `mqtt_helper_deinit`, with arbitrary answers from resolver, credential store and codec, runs
to its end, and every state transition the calls perform goes to a state of the legal set of the
state it leaves. -/
theorem run_api_never_faults (k : Kconfig) (calls : List ApiCall) (w : World) :
    ∃ rets w', run_api k calls w = .ok (rets, w') ∧ rets.length = calls.length ∧
      ∃ added, w'.trace = w.trace ++ added ∧
        ∀ S T, Action.state_transition S T ∈ added → T ∈ legal_set S ∧ T ≠ S := by
  induction calls generalizing w with
  | nil => exact ⟨[], w, rfl, rfl, [], by simp, by simp⟩
  | cons c cs ih =>
    obtain ⟨ret, w1, h1, _, l1, t1, g1⟩ := ApiCall.run_spec k c w
    obtain ⟨rets, w2, h2, hlen, l2, t2, g2⟩ := ih w1
    refine ⟨ret :: rets, w2, by simp [run_api, h1, h2], by simp [hlen], l1 ++ l2,
      by rw [t2, t1, List.append_assoc], ?_⟩
    intro S T h
    rcases List.mem_append.1 h with h | h
    · exact g1 S T h
    · exact g2 S T h

/-! ## Claims on the reachability of Connected -/

/-- Function `on_publish` leaves the connection state alone. -/
theorem on_publish_mqtt_state (k : Kconfig) (message_id : Nat) (topic : String)
    (qos payload_len : Nat) (r : CodecReply) (w : World) :
    (on_publish k message_id topic qos payload_len r w).mqtt_state = w.mqtt_state := by
  have hne : EMSGSIZE ≠ 0 := by decide
  unfold on_publish publish_get_payload send_ack
  by_cases h1 : payload_len > k.MQTT_PAYLOAD_BUFFER_LEN <;>
    by_cases h2 : r.readall_ret = 0 <;>
    by_cases h3 : qos = MQTT_QOS_1_AT_LEAST_ONCE <;>
    by_cases h4 : w.current_cfg.on_publish = true <;>
    by_cases h5 : w.current_cfg.on_error = true <;>
    simp [h1, h2, h3, h4, h5, hne]

/-- C7: the state becomes Connected only through an accepted connect acknowledgment.  A step of
the system (a public API call, the dispatch of a codec event, or the exit of the worker loop)
that starts in a state other than Connected and ends, without fault, in state Connected is the
dispatch of an `MQTT_EVT_CONNACK` whose return code is `MQTT_CONNECTION_ACCEPTED`. -/
theorem connected_only_by_accepted_connack (k : Kconfig) (s : Step) (w w' : World)
    (h0 : w.mqtt_state ≠ MQTT_STATE_CONNECTED) (hrun : s.run k w = .ok w')
    (h1 : w'.mqtt_state = MQTT_STATE_CONNECTED) :
    ∃ r, s = .event (.MQTT_EVT_CONNACK MQTT_CONNECTION_ACCEPTED) r := by
  cases s with
  | api c =>
    obtain ⟨ret, w1, hc, hst, _⟩ := ApiCall.run_spec k c w
    simp only [Step.run, hc, Except.ok.injEq] at hrun
    subst hrun
    exact absurd (hst h1) h0
  | loop_exit =>
    have := mqtt_state_set_ok_state hrun
    rw [this] at h1
    exact absurd h1 (by decide)
  | event evt r =>
    simp only [Step.run] at hrun
    cases evt with
    | MQTT_EVT_CONNACK return_code =>
      by_cases hrc : return_code = MQTT_CONNECTION_ACCEPTED
      · exact ⟨r, by rw [hrc]⟩
      · simp only [mqtt_evt_handler, hrc, if_false] at hrun
        rcases hset : mqtt_state_set MQTT_STATE_DISCONNECTED w with f | w1
        · simp [hset] at hrun
        · have hw1 := mqtt_state_set_ok_state hset
          simp only [hset] at hrun
          split_ifs at hrun <;> cases hrun <;> simp_all
    | MQTT_EVT_DISCONNECT result =>
      simp only [mqtt_evt_handler] at hrun
      rcases hset : mqtt_state_set MQTT_STATE_DISCONNECTED w with f | w1
      · simp [hset] at hrun
      · have hw1 := mqtt_state_set_ok_state hset
        simp only [hset] at hrun
        split_ifs at hrun <;> cases hrun <;> simp_all
    | MQTT_EVT_PUBLISH message_id topic qos payload_len =>
      simp only [mqtt_evt_handler, Except.ok.injEq] at hrun
      subst hrun
      rw [on_publish_mqtt_state] at h1
      exact absurd h1 h0
    | MQTT_EVT_PUBACK message_id result =>
      simp only [mqtt_evt_handler] at hrun
      split_ifs at hrun <;> cases hrun <;> simp_all
    | MQTT_EVT_SUBACK message_id result =>
      simp only [mqtt_evt_handler] at hrun
      split_ifs at hrun <;> cases hrun <;> simp_all
    | MQTT_EVT_PINGRESP =>
      simp only [mqtt_evt_handler] at hrun
      split_ifs at hrun <;> cases hrun <;> simp_all
    | MQTT_EVT_OTHER type =>
      simp only [mqtt_evt_handler, Except.ok.injEq] at hrun
      subst hrun
      exact absurd h1 h0

/-- C7 at a concrete input: the accepted connack dispatched in state Connecting is such a
step. -/
theorem connected_only_by_accepted_connack_witness :
    ∃ r, Step.event (.MQTT_EVT_CONNACK 0) ⟨0, 0⟩ =
      .event (.MQTT_EVT_CONNACK MQTT_CONNECTION_ACCEPTED) r :=
  connected_only_by_accepted_connack Kconfig.sample (.event (.MQTT_EVT_CONNACK 0) ⟨0, 0⟩)
    (World.in_state MQTT_STATE_CONNECTING)
    ((World.in_state MQTT_STATE_CONNECTING).transition MQTT_STATE_CONNECTED |>.emit
      (.on_connack 0))
    (by decide) rfl rfl

/-! ## Claims on the worker loop -/

/-- C3: the worker loop always ends in Disconnected.  Let the inner poll iteration start in any
state (the semaphore having been taken) and let the answers of poll and codec, and the events
dispatched, be such that the iteration leaves the loop, in world `w1`.  Then
`mqtt_helper_poll_loop` returns: the final `mqtt_state_set(MQTT_STATE_DISCONNECTED)` does not
fault, and the state on return is Disconnected.  Disconnected is the current state or a legal
target in each of the six states. -/
theorem poll_loop_ends_disconnected (k : Kconfig) (cs : List PollCycle) (w w1 : World)
    (hsem : w.connection_poll_sem ≠ 0)
    (hexit : poll_loop_while k cs (k_sem_take w) = .exited w1) :
    (∃ w', mqtt_helper_poll_loop k cs w = .returned w' ∧ poll_loop_exit w1 = .ok w' ∧
      w'.mqtt_state = MQTT_STATE_DISCONNECTED) ∧
    (∀ S : mqtt_state, MQTT_STATE_DISCONNECTED = S ∨ MQTT_STATE_DISCONNECTED ∈ legal_set S) ∧
    (∀ w2, mqtt_helper_poll_loop k cs w = .returned w2 →
      w2.mqtt_state = MQTT_STATE_DISCONNECTED) := by
  obtain ⟨w', hset, hst, _⟩ := mqtt_state_set_disconnected_ok w1
  have hloop : mqtt_helper_poll_loop k cs w = .returned w' := by
    simp [mqtt_helper_poll_loop, hsem, hexit, poll_loop_exit, hset]
  refine ⟨⟨w', hloop, hset, hst⟩, fun S => by cases S <;> decide, ?_⟩
  intro w2 h2
  rw [hloop] at h2
  cases h2
  exact hst

/-- C3 at a concrete input: a connection acknowledged in the first poll cycle and lost to a poll
error in the second; the loop is left in state Connected and the call returns in
Disconnected. -/
theorem poll_loop_ends_disconnected_witness :
    ∃ w', mqtt_helper_poll_loop Kconfig.sample
        [PollCycle.accepted_connack, PollCycle.poll_error]
        (k_sem_give (World.in_state MQTT_STATE_CONNECTING)) = .returned w' ∧
      w'.mqtt_state = MQTT_STATE_DISCONNECTED :=
  (poll_loop_ends_disconnected Kconfig.sample [PollCycle.accepted_connack, PollCycle.poll_error]
    (k_sem_give (World.in_state MQTT_STATE_CONNECTING)) _ (by decide) rfl).1.imp
    fun _ h => ⟨h.1, h.2.2⟩

/-! ## Claims on rejected calls and on payload staging -/

/-- C12: a public API call rejected by its state guard has no side effects.  For each of the six
API functions, when the current state is outside the set the function requires, the call
returns `-EOPNOTSUPP` together with the very world it was called in: connection state, stored
configuration, transport handle, semaphore count and trace are unchanged, so no collaborator was
called, no callback invoked and no start signal given.  In particular `mqtt_helper_publish` in
state Disconnected adds nothing to the trace. -/
theorem rejected_call_changes_nothing (k : Kconfig) (cfg : mqtt_helper_cfg)
    (p : mqtt_helper_conn_params) (e : ConnectEnv) (disconnect_ret : Int) (list_count : Nat)
    (subscribe_ret : Int) (message_id : Nat) (publish_ret : Int) (w : World) :
    (w.mqtt_state ≠ MQTT_STATE_UNINIT → w.mqtt_state ≠ MQTT_STATE_DISCONNECTED →
      mqtt_helper_init cfg w = .ok (-EOPNOTSUPP, w)) ∧
    (w.mqtt_state ≠ MQTT_STATE_DISCONNECTED →
      mqtt_helper_connect k p e w = .ok (-EOPNOTSUPP, w)) ∧
    (w.mqtt_state ≠ MQTT_STATE_CONNECTED →
      mqtt_helper_disconnect disconnect_ret w = .ok (-EOPNOTSUPP, w)) ∧
    (w.mqtt_state ≠ MQTT_STATE_CONNECTED →
      mqtt_helper_subscribe list_count subscribe_ret w = (-EOPNOTSUPP, w)) ∧
    (w.mqtt_state ≠ MQTT_STATE_CONNECTED →
      mqtt_helper_publish message_id publish_ret w = (-EOPNOTSUPP, w)) ∧
    (w.mqtt_state ≠ MQTT_STATE_DISCONNECTED →
      mqtt_helper_deinit w = .ok (-EOPNOTSUPP, w)) ∧
    (w.mqtt_state = MQTT_STATE_DISCONNECTED →
      (mqtt_helper_publish message_id publish_ret w).1 = -EOPNOTSUPP ∧
      (mqtt_helper_publish message_id publish_ret w).2.trace = w.trace) := by
  refine ⟨?_, mqtt_helper_connect_rejected k p e w, ?_, ?_, ?_, ?_, ?_⟩
  · intro h1 h2; simp [mqtt_helper_init_eq, h1, h2]
  · intro h; simp [mqtt_helper_disconnect_eq, h]
  · intro h; simp [mqtt_helper_subscribe_eq, h]
  · intro h; simp [mqtt_helper_publish_eq, h]
  · intro h; simp [mqtt_helper_deinit_eq, h]
  · intro h; simp [mqtt_helper_publish_eq, h]

/-- C13: payload staging rejects on size exactly when the declared length is strictly greater
than `sizeof(payload_buf)`.  For every length up to the capacity, the capacity included, the
size check lets the call through: the codec is asked to read exactly `length` bytes and the
value returned is the read result of the codec (so it is `-EMSGSIZE` only if the codec itself
answered so).  For every length of capacity + 1 or more the call returns `-EMSGSIZE` and the
codec is not called. -/
theorem publish_get_payload_size_check (k : Kconfig) (length : Nat) (readall_ret : Int)
    (w : World) :
    (length ≤ k.MQTT_PAYLOAD_BUFFER_LEN →
      publish_get_payload k length readall_ret w =
        (readall_ret, w.emit (.mqtt_readall_publish_payload length))) ∧
    (publish_get_payload k k.MQTT_PAYLOAD_BUFFER_LEN readall_ret w =
        (readall_ret, w.emit (.mqtt_readall_publish_payload k.MQTT_PAYLOAD_BUFFER_LEN))) ∧
    (length ≤ k.MQTT_PAYLOAD_BUFFER_LEN → readall_ret ≠ -EMSGSIZE →
      (publish_get_payload k length readall_ret w).1 ≠ -EMSGSIZE) ∧
    (k.MQTT_PAYLOAD_BUFFER_LEN + 1 ≤ length →
      publish_get_payload k length readall_ret w = (-EMSGSIZE, w)) := by
  refine ⟨?_, ?_, ?_, ?_⟩
  · intro h
    have : ¬ length > k.MQTT_PAYLOAD_BUFFER_LEN := by omega
    simp [publish_get_payload, this]
  · simp [publish_get_payload]
  · intro h hr
    have : ¬ length > k.MQTT_PAYLOAD_BUFFER_LEN := by omega
    simpa [publish_get_payload, this] using hr
  · intro h
    have : length > k.MQTT_PAYLOAD_BUFFER_LEN := by omega
    simp [publish_get_payload, this]

/-! ## Claims on the transitions requested by the dispatcher -/

/-- C20: the transitions the dispatcher requests.  In every state, a DISCONNECT event and a
connack whose return code is not `MQTT_CONNECTION_ACCEPTED` are dispatched without the
illegal-transition fault and leave the state Disconnected.  An accepted connack is dispatched
without fault exactly when the state is Connecting or Connected, then leaving the state
Connected, and ends in the illegal-transition fault in Uninitialized, Disconnected,
TransportConnected and Disconnecting.  Publish, puback, suback and ping-response events are
dispatched without fault and leave the state as it was. -/
theorem dispatcher_transitions (k : Kconfig) (r : CodecReply) (w : World) :
    (∀ result, ∃ w', mqtt_evt_handler k (.MQTT_EVT_DISCONNECT result) r w = .ok w' ∧
      w'.mqtt_state = MQTT_STATE_DISCONNECTED) ∧
    (∀ return_code, return_code ≠ MQTT_CONNECTION_ACCEPTED →
      ∃ w', mqtt_evt_handler k (.MQTT_EVT_CONNACK return_code) r w = .ok w' ∧
        w'.mqtt_state = MQTT_STATE_DISCONNECTED) ∧
    ((∃ w', mqtt_evt_handler k (.MQTT_EVT_CONNACK MQTT_CONNECTION_ACCEPTED) r w = .ok w') ↔
      (w.mqtt_state = MQTT_STATE_CONNECTING ∨ w.mqtt_state = MQTT_STATE_CONNECTED)) ∧
    (∀ w', mqtt_evt_handler k (.MQTT_EVT_CONNACK MQTT_CONNECTION_ACCEPTED) r w = .ok w' →
      w'.mqtt_state = MQTT_STATE_CONNECTED) ∧
    (w.mqtt_state = MQTT_STATE_UNINIT ∨ w.mqtt_state = MQTT_STATE_DISCONNECTED ∨
        w.mqtt_state = MQTT_STATE_TRANSPORT_CONNECTED ∨
        w.mqtt_state = MQTT_STATE_DISCONNECTING →
      mqtt_evt_handler k (.MQTT_EVT_CONNACK MQTT_CONNECTION_ACCEPTED) r w =
        .error (.illegal_transition w.mqtt_state MQTT_STATE_CONNECTED)) ∧
    (∀ message_id topic qos payload_len,
      ∃ w', mqtt_evt_handler k (.MQTT_EVT_PUBLISH message_id topic qos payload_len) r w =
        .ok w' ∧ w'.mqtt_state = w.mqtt_state) ∧
    (∀ message_id result, ∃ w', mqtt_evt_handler k (.MQTT_EVT_PUBACK message_id result) r w =
        .ok w' ∧ w'.mqtt_state = w.mqtt_state) ∧
    (∀ message_id result, ∃ w', mqtt_evt_handler k (.MQTT_EVT_SUBACK message_id result) r w =
        .ok w' ∧ w'.mqtt_state = w.mqtt_state) ∧
    (∃ w', mqtt_evt_handler k .MQTT_EVT_PINGRESP r w = .ok w' ∧
        w'.mqtt_state = w.mqtt_state) := by
  refine ⟨?_, ?_, ?_, ?_, ?_, ?_, ?_, ?_, ?_⟩
  · intro result
    obtain ⟨w1, h1, h2, _⟩ := mqtt_state_set_disconnected_ok w
    simp only [mqtt_evt_handler, h1]
    split_ifs
    · exact ⟨_, rfl, by simpa using h2⟩
    · exact ⟨_, rfl, h2⟩
  · intro return_code hrc
    obtain ⟨w1, h1, h2, _⟩ := mqtt_state_set_disconnected_ok w
    simp only [mqtt_evt_handler, hrc, if_false, h1]
    split_ifs
    · exact ⟨_, rfl, by simpa using h2⟩
    · exact ⟨_, rfl, h2⟩
  · rcases w with ⟨st, c, cl, b, sem, ca, tr⟩
    by_cases hc : c.on_connack = true <;> cases st <;>
      simp [mqtt_evt_handler, mqtt_state_set, mqtt_state_get, notify_error_of, World.transition,
        World.emit, hc]
  · intro w' h
    simp only [mqtt_evt_handler, if_true] at h
    rcases hset : mqtt_state_set MQTT_STATE_CONNECTED w with f | w1
    · simp [hset] at h
    · have hw1 := mqtt_state_set_ok_state hset
      simp only [hset] at h
      split_ifs at h <;> cases h <;> simp_all
  · rcases w with ⟨st, c, cl, b, sem, ca, tr⟩
    cases st <;>
      simp [mqtt_evt_handler, mqtt_state_set, mqtt_state_get, notify_error_of]
  · intro message_id topic qos payload_len
    exact ⟨_, rfl, on_publish_mqtt_state k message_id topic qos payload_len r w⟩
  · intro message_id result
    simp only [mqtt_evt_handler]
    split_ifs
    · exact ⟨_, rfl, rfl⟩
    · exact ⟨_, rfl, rfl⟩
  · intro message_id result
    simp only [mqtt_evt_handler]
    split_ifs
    · exact ⟨_, rfl, rfl⟩
    · exact ⟨_, rfl, rfl⟩
  · simp only [mqtt_evt_handler]
    split_ifs
    · exact ⟨_, rfl, rfl⟩
    · exact ⟨_, rfl, rfl⟩

/-! ## What a dispatch adds to the trace -/

/-- The trace and the configuration after `on_publish`, written out. -/
theorem on_publish_trace (k : Kconfig) (message_id : Nat) (topic : String)
    (qos payload_len : Nat) (r : CodecReply) (w : World) :
    (on_publish k message_id topic qos payload_len r w).current_cfg = w.current_cfg ∧
    (on_publish k message_id topic qos payload_len r w).trace = w.trace ++
      (if payload_len > k.MQTT_PAYLOAD_BUFFER_LEN then
        (if w.current_cfg.on_error then [.on_error .MQTT_HELPER_ERROR_MSG_SIZE] else [])
      else if r.readall_ret ≠ 0 then
        .mqtt_readall_publish_payload payload_len ::
          (if w.current_cfg.on_error then [.on_error .MQTT_HELPER_ERROR_MSG_SIZE] else [])
      else
        .mqtt_readall_publish_payload payload_len ::
          ((if qos = MQTT_QOS_1_AT_LEAST_ONCE then [.mqtt_publish_qos1_ack message_id]
            else []) ++
           (if w.current_cfg.on_publish then [.on_publish topic payload_len] else []))) := by
  have hne : EMSGSIZE ≠ 0 := by decide
  unfold on_publish publish_get_payload send_ack
  by_cases h1 : payload_len > k.MQTT_PAYLOAD_BUFFER_LEN <;>
    by_cases h2 : r.readall_ret = 0 <;>
    by_cases h3 : qos = MQTT_QOS_1_AT_LEAST_ONCE <;>
    by_cases h4 : w.current_cfg.on_publish = true <;>
    by_cases h5 : w.current_cfg.on_error = true <;>
    simp [h1, h2, h3, h4, h5, hne]

/-- An accepted `mqtt_state_set` keeps the configuration and adds at most the transition to the
trace. -/
theorem mqtt_state_set_added {T : mqtt_state} {w w1 : World}
    (h : mqtt_state_set T w = .ok w1) :
    w1.current_cfg = w.current_cfg ∧
    (w1.trace = w.trace ∨ w1.trace = w.trace ++ [.state_transition w.mqtt_state T]) := by
  rw [mqtt_state_set_eq] at h
  split_ifs at h with h1 h2
  · cases h; exact ⟨rfl, Or.inl rfl⟩
  · cases h; exact ⟨rfl, Or.inr rfl⟩

/-- A dispatch keeps the stored configuration; it invokes a callback only if the slot of that
callback is set; and it does not call `mqtt_input`. -/
theorem mqtt_evt_handler_added (k : Kconfig) (evt : mqtt_evt) (r : CodecReply) (w w' : World)
    (h : mqtt_evt_handler k evt r w = .ok w') :
    w'.current_cfg = w.current_cfg ∧
    ∃ added, w'.trace = w.trace ++ added ∧
      ∀ a ∈ added, a.slot_set w.current_cfg = true ∧ a ≠ Action.mqtt_input := by
  have after_set : ∀ (T : mqtt_state) (w1 : World) (cb : Action) (slot : Bool),
      mqtt_state_set T w = .ok w1 → cb.slot_set w.current_cfg = slot →
      cb ≠ Action.mqtt_input →
      (if slot then Except.ok (w1.emit cb) else Except.ok w1) = (Except.ok w' : Except Fault World) →
      w'.current_cfg = w.current_cfg ∧
      ∃ added, w'.trace = w.trace ++ added ∧
        ∀ a ∈ added, a.slot_set w.current_cfg = true ∧ a ≠ Action.mqtt_input := by
    intro T w1 cb slot hset hslot hcb hw
    obtain ⟨hc, ht⟩ := mqtt_state_set_added hset
    cases slot
    · simp only [Bool.false_eq_true, if_false, Except.ok.injEq] at hw
      subst hw
      refine ⟨hc, ?_⟩
      rcases ht with ht | ht
      · exact ⟨[], by simp [ht], by simp⟩
      · exact ⟨_, ht, by simp [Action.slot_set]⟩
    · simp only [if_true, Except.ok.injEq] at hw
      subst hw
      refine ⟨hc, ?_⟩
      rcases ht with ht | ht
      · exact ⟨[cb], by simp [ht], by simpa using ⟨hslot, hcb⟩⟩
      · exact ⟨[.state_transition w.mqtt_state T, cb], by simp [ht],
          by simpa [Action.slot_set] using ⟨hslot, hcb⟩⟩
  cases evt with
  | MQTT_EVT_CONNACK return_code =>
    simp only [mqtt_evt_handler] at h
    split_ifs at h with hrc
    · rcases hset : mqtt_state_set MQTT_STATE_CONNECTED w with f | w1
      · simp [hset] at h
      · simp only [hset, (mqtt_state_set_added hset).1] at h
        exact after_set _ w1 (.on_connack return_code) _ hset rfl (by simp) h
    · rcases hset : mqtt_state_set MQTT_STATE_DISCONNECTED w with f | w1
      · simp [hset] at h
      · simp only [hset, (mqtt_state_set_added hset).1] at h
        exact after_set _ w1 (.on_connack return_code) _ hset rfl (by simp) h
  | MQTT_EVT_DISCONNECT result =>
    simp only [mqtt_evt_handler] at h
    rcases hset : mqtt_state_set MQTT_STATE_DISCONNECTED w with f | w1
    · simp [hset] at h
    · simp only [hset, (mqtt_state_set_added hset).1] at h
      exact after_set _ w1 (.on_disconnect result) _ hset rfl (by simp) h
  | MQTT_EVT_PUBLISH message_id topic qos payload_len =>
    simp only [mqtt_evt_handler, Except.ok.injEq] at h
    subst h
    obtain ⟨hc, ht⟩ := on_publish_trace k message_id topic qos payload_len r w
    refine ⟨hc, _, ht, ?_⟩
    intro a ha
    split_ifs at ha <;> simp at ha <;> (try rcases ha with rfl | rfl | rfl) <;>
      simp_all [Action.slot_set]
  | MQTT_EVT_PUBACK message_id result =>
    simp only [mqtt_evt_handler] at h
    split_ifs at h with hs <;> cases h
    · exact ⟨rfl, [_], rfl, by simpa [Action.slot_set] using hs⟩
    · exact ⟨rfl, [], by simp, by simp⟩
  | MQTT_EVT_SUBACK message_id result =>
    simp only [mqtt_evt_handler] at h
    split_ifs at h with hs <;> cases h
    · exact ⟨rfl, [_], rfl, by simpa [Action.slot_set] using hs⟩
    · exact ⟨rfl, [], by simp, by simp⟩
  | MQTT_EVT_PINGRESP =>
    simp only [mqtt_evt_handler] at h
    split_ifs at h with hs <;> cases h
    · exact ⟨rfl, [_], rfl, by simpa [Action.slot_set] using hs⟩
    · exact ⟨rfl, [], by simp, by simp⟩
  | MQTT_EVT_OTHER type =>
    simp only [mqtt_evt_handler, Except.ok.injEq] at h
    subst h
    exact ⟨rfl, [], by simp, by simp⟩

/-- The events dispatched during one `mqtt_input` keep the stored configuration, invoke set
callbacks only and contain no further `mqtt_input` call. -/
theorem dispatch_events_added (k : Kconfig) (events : List (mqtt_evt × CodecReply))
    (w w' : World) (h : dispatch_events k events w = .ok w') :
    w'.current_cfg = w.current_cfg ∧
    ∃ added, w'.trace = w.trace ++ added ∧
      ∀ a ∈ added, a.slot_set w.current_cfg = true ∧ a ≠ Action.mqtt_input := by
  induction events generalizing w with
  | nil =>
    simp only [dispatch_events, Except.ok.injEq] at h
    subst h
    exact ⟨rfl, [], by simp, by simp⟩
  | cons ev rest ih =>
    obtain ⟨evt, r⟩ := ev
    simp only [dispatch_events] at h
    rcases hev : mqtt_evt_handler k evt r w with f | w1
    · simp [hev] at h
    · simp only [hev] at h
      obtain ⟨c1, l1, t1, g1⟩ := mqtt_evt_handler_added k evt r w w1 hev
      obtain ⟨c2, l2, t2, g2⟩ := ih w1 h
      refine ⟨c2.trans c1, l1 ++ l2, by rw [t2, t1, List.append_assoc], ?_⟩
      intro a ha
      rcases List.mem_append.1 ha with ha | ha
      · exact g1 a ha
      · rw [← c1]; exact g2 a ha

/-! ## Claims on single poll cycles -/

/-- C18: a poll cycle whose `poll` returns 0, started in a state other than Disconnecting.  The
cycle calls `mqtt_keepalive_time_left`, `poll` and then `mqtt_live`, once each, and does not
call `mqtt_input`.  When `mqtt_live` answers 0 or `-EAGAIN` the loop goes on with the next poll
cycle; for every other answer the loop is left. -/
theorem poll_timeout_cycle (k : Kconfig) (c : PollCycle) (cs : List PollCycle) (w : World)
    (hs : w.mqtt_state ≠ MQTT_STATE_DISCONNECTING) (hp : c.poll_ret = 0) :
    (poll_loop_while k (c :: cs) w =
      if c.live_ret = 0 ∨ c.live_ret = -EAGAIN then
        poll_loop_while k cs
          (((w.emit .mqtt_keepalive_time_left).emit (.poll c.time_left)).emit .mqtt_live)
      else
        .exited (((w.emit .mqtt_keepalive_time_left).emit (.poll c.time_left)).emit
          .mqtt_live)) ∧
    (((w.emit .mqtt_keepalive_time_left).emit (.poll c.time_left)).emit .mqtt_live).trace =
      w.trace ++ [.mqtt_keepalive_time_left, .poll c.time_left, .mqtt_live] ∧
    [Action.mqtt_keepalive_time_left, .poll c.time_left, .mqtt_live].count .mqtt_live = 1 ∧
    Action.mqtt_input ∉ [Action.mqtt_keepalive_time_left, .poll c.time_left, .mqtt_live] := by
  refine ⟨?_, by simp, by simp [List.count_cons], by simp⟩
  by_cases h1 : c.live_ret = 0
  · simp [poll_loop_while, poll_loop_body, mqtt_state_verify_eq, hs, hp, h1]
  · by_cases h2 : c.live_ret = -EAGAIN
    · simp [poll_loop_while, poll_loop_body, mqtt_state_verify_eq, hs, hp, h2]
    · simp [poll_loop_while, poll_loop_body, mqtt_state_verify_eq, hs, hp, h1, h2]

/-- C18 at a concrete input: in state Connected a ping that is not yet due keeps the loop
polling. -/
theorem poll_timeout_cycle_witness :
    poll_loop_while Kconfig.sample [PollCycle.timeout_eagain]
        (World.in_state MQTT_STATE_CONNECTED) =
      .in_poll ((((World.in_state MQTT_STATE_CONNECTED).emit .mqtt_keepalive_time_left).emit
        (.poll 0)).emit .mqtt_live) :=
  ((poll_timeout_cycle Kconfig.sample PollCycle.timeout_eagain []
    (World.in_state MQTT_STATE_CONNECTED) (by decide) rfl).1).trans rfl

/-- C19: a poll cycle in which `poll` reports the socket readable, started in a state other
than Disconnecting and in which the dispatch of the decoded events does not fault.
`mqtt_input` is called exactly once in the cycle.  The loop is left when `mqtt_input` answers
`-ENOTCONN`, and when the state after `mqtt_input` is Disconnected or Uninitialized.  When
`mqtt_input` answers 0 or another error, the state is neither Disconnected nor Uninitialized and
none of `POLLNVAL`, `POLLHUP`, `POLLERR` is set, the loop goes on with the next poll cycle. -/
theorem poll_readable_cycle (k : Kconfig) (c : PollCycle) (cs : List PollCycle) (w w2 : World)
    (hs : w.mqtt_state ≠ MQTT_STATE_DISCONNECTING) (hp : 0 < c.poll_ret)
    (hin : c.revents &&& POLLIN = POLLIN)
    (hinput : mqtt_input k c.events
      ((w.emit .mqtt_keepalive_time_left).emit (.poll c.time_left)) = .ok w2) :
    (∃ added, w2.trace = w.trace ++ added ∧ added.count .mqtt_input = 1) ∧
    (c.input_ret = -ENOTCONN → poll_loop_while k (c :: cs) w = .exited w2) ∧
    (w2.mqtt_state = MQTT_STATE_DISCONNECTED ∨ w2.mqtt_state = MQTT_STATE_UNINIT →
      poll_loop_while k (c :: cs) w = .exited w2) ∧
    (c.input_ret ≠ -ENOTCONN → w2.mqtt_state ≠ MQTT_STATE_DISCONNECTED →
      w2.mqtt_state ≠ MQTT_STATE_UNINIT → c.revents &&& POLLNVAL ≠ POLLNVAL →
      c.revents &&& POLLHUP ≠ POLLHUP → c.revents &&& POLLERR ≠ POLLERR →
      poll_loop_while k (c :: cs) w = poll_loop_while k cs w2) := by
  have hp1 : ¬ c.poll_ret < 0 := by omega
  have hp2 : ¬ c.poll_ret = 0 := by omega
  have hnc : ENOTCONN ≠ 0 := by decide
  have hbody : poll_loop_while k (c :: cs) w =
      if c.input_ret ≠ 0 ∧ c.input_ret = -ENOTCONN then .exited w2
      else if w2.mqtt_state = MQTT_STATE_DISCONNECTED ∨ w2.mqtt_state = MQTT_STATE_UNINIT then
        .exited w2
      else
        match poll_signal_checks c.revents w2 with
        | .break_loop w3 => .exited w3
        | .next_cycle w3 => poll_loop_while k cs w3 := by
    simp only [poll_loop_while, poll_loop_body, mqtt_state_verify_eq, hs, hp1, hp2, hin,
      hinput, decide_False, Bool.false_eq_true, if_false, if_true, Bool.or_eq_true,
      decide_eq_true_eq]
    split_ifs <;> first | rfl | (cases poll_signal_checks c.revents w2 <;> rfl)
  refine ⟨?_, ?_, ?_, ?_⟩
  · obtain ⟨_, added, ht, hg⟩ := dispatch_events_added k c.events _ w2 hinput
    refine ⟨[.mqtt_keepalive_time_left, .poll c.time_left, .mqtt_input] ++ added,
      by simp [ht], ?_⟩
    have h0 : added.count .mqtt_input = 0 :=
      List.count_eq_zero.2 fun hmem => (hg _ hmem).2 rfl
    simp [List.count_cons, h0]
  · intro h
    have h0 : c.input_ret ≠ 0 := by rw [h]; simpa using hnc
    rw [hbody, if_pos ⟨h0, h⟩]
  · intro h
    rw [hbody]
    split_ifs
    · rfl
    · rfl
  · intro h1 h2 h3 h4 h5 h6
    rw [hbody, if_neg (fun h => h1 h.2), if_neg (by simp [h2, h3])]
    simp [poll_signal_checks, h4, h5, h6]

/-- C19 at a concrete input: a publish acknowledgment read in state Connected keeps the loop
polling. -/
theorem poll_readable_cycle_witness :
    poll_loop_while Kconfig.sample [PollCycle.readable_puback]
        (World.in_state MQTT_STATE_CONNECTED) =
      poll_loop_while Kconfig.sample []
        (((((World.in_state MQTT_STATE_CONNECTED).emit .mqtt_keepalive_time_left).emit
          (.poll 1000)).emit .mqtt_input).emit (.on_puback 42 0)) :=
  (poll_readable_cycle Kconfig.sample PollCycle.readable_puback []
    (World.in_state MQTT_STATE_CONNECTED) _ (by decide) (by decide) (by decide) rfl).2.2.2
    (by decide) (by decide) (by decide) (by decide) (by decide) (by decide)

/-! ## Callback slots do not steer the dispatcher -/

/-- Equality of dispatch effects, spelled out. -/
theorem dispatch_effect_ok_iff {r1 r2 : Except Fault World} :
    dispatch_effect r1 = dispatch_effect r2 ↔
      (∀ f, r1 = .error f ↔ r2 = .error f) ∧
      (∀ w1 w2, r1 = .ok w1 → r2 = .ok w2 → w1.mqtt_state = w2.mqtt_state ∧
        w1.trace.filter (fun a => !a.is_callback) = w2.trace.filter (fun a => !a.is_callback)) := by
  cases r1 <;> cases r2 <;> simp [dispatch_effect]

/-- The part of a dispatch that does not depend on the callback slots. -/
theorem dispatch_effect_with_cfg (k : Kconfig) (evt : mqtt_evt) (r : CodecReply) (w : World)
    (c1 c2 : mqtt_helper_cfg) :
    dispatch_effect (mqtt_evt_handler k evt r (w.with_cfg c1)) =
      dispatch_effect (mqtt_evt_handler k evt r (w.with_cfg c2)) := by
  rcases w with ⟨st, c, cl, b, sem, ca, tr⟩
  cases evt with
  | MQTT_EVT_CONNACK return_code =>
    by_cases hrc : return_code = MQTT_CONNECTION_ACCEPTED <;>
      by_cases h1 : c1.on_connack = true <;> by_cases h2 : c2.on_connack = true <;>
      cases st <;>
      simp [mqtt_evt_handler, dispatch_effect, World.with_cfg, mqtt_state_set, mqtt_state_get,
        notify_error_of, World.transition, World.emit, List.filter_append, Action.is_callback,
        hrc, h1, h2]
  | MQTT_EVT_DISCONNECT result =>
    by_cases h1 : c1.on_disconnect = true <;> by_cases h2 : c2.on_disconnect = true <;>
      cases st <;>
      simp [mqtt_evt_handler, dispatch_effect, World.with_cfg, mqtt_state_set, mqtt_state_get,
        notify_error_of, World.transition, World.emit, List.filter_append, Action.is_callback,
        h1, h2]
  | MQTT_EVT_PUBLISH message_id topic qos payload_len =>
    simp only [mqtt_evt_handler, dispatch_effect, on_publish_mqtt_state,
      (on_publish_trace k message_id topic qos payload_len r _).2, World.with_cfg]
    by_cases g1 : payload_len > k.MQTT_PAYLOAD_BUFFER_LEN <;>
      by_cases g2 : r.readall_ret = 0 <;>
      by_cases g3 : qos = MQTT_QOS_1_AT_LEAST_ONCE <;>
      by_cases h1 : c1.on_publish = true <;> by_cases h2 : c2.on_publish = true <;>
      by_cases h3 : c1.on_error = true <;> by_cases h4 : c2.on_error = true <;>
      simp [List.filter_append, Action.is_callback, g1, g2, g3, h1, h2, h3, h4]
  | MQTT_EVT_PUBACK message_id result =>
    by_cases h1 : c1.on_puback = true <;> by_cases h2 : c2.on_puback = true <;>
      simp [mqtt_evt_handler, dispatch_effect, World.with_cfg, World.emit, List.filter_append,
        Action.is_callback, h1, h2]
  | MQTT_EVT_SUBACK message_id result =>
    by_cases h1 : c1.on_suback = true <;> by_cases h2 : c2.on_suback = true <;>
      simp [mqtt_evt_handler, dispatch_effect, World.with_cfg, World.emit, List.filter_append,
        Action.is_callback, h1, h2]
  | MQTT_EVT_PINGRESP =>
    by_cases h1 : c1.on_pingresp = true <;> by_cases h2 : c2.on_pingresp = true <;>
      simp [mqtt_evt_handler, dispatch_effect, World.with_cfg, World.emit, List.filter_append,
        Action.is_callback, h1, h2]
  | MQTT_EVT_OTHER type =>
    simp [mqtt_evt_handler, dispatch_effect, World.with_cfg]

/-- C14: invoking a missing callback is a silent no-op.  For every event, every world and every
two configurations `c1`, `c2` of callback slots, the dispatcher run with `c1` and run with `c2`
end in the same fault or else in the same connection state with the same actions other than
callback invocations (state transition, payload staging, QoS 1 acknowledgment); a callback is
invoked only if its slot is set; and a dispatch with no slot set faults only if the dispatch
faults with any other configuration. -/
theorem missing_callback_is_noop (k : Kconfig) (evt : mqtt_evt) (r : CodecReply) (w : World)
    (c1 c2 : mqtt_helper_cfg) :
    (∀ f, mqtt_evt_handler k evt r (w.with_cfg c1) = .error f ↔
      mqtt_evt_handler k evt r (w.with_cfg c2) = .error f) ∧
    (∀ w1 w2, mqtt_evt_handler k evt r (w.with_cfg c1) = .ok w1 →
      mqtt_evt_handler k evt r (w.with_cfg c2) = .ok w2 →
      w1.mqtt_state = w2.mqtt_state ∧
      w1.trace.filter (fun a => !a.is_callback) = w2.trace.filter (fun a => !a.is_callback) ∧
      w1.trace.filter (fun a => a.is_external_call) =
        w2.trace.filter (fun a => a.is_external_call)) ∧
    (∀ w1, mqtt_evt_handler k evt r (w.with_cfg c1) = .ok w1 →
      ∃ added, w1.trace = w.trace ++ added ∧ ∀ a ∈ added, a.slot_set c1 = true) ∧
    (∀ f, mqtt_evt_handler k evt r (w.with_cfg mqtt_helper_cfg.zero) = .error f →
      mqtt_evt_handler k evt r (w.with_cfg c1) = .error f) := by
  have key := fun a b => dispatch_effect_ok_iff.1 (dispatch_effect_with_cfg k evt r w a b)
  refine ⟨(key c1 c2).1, ?_, ?_, fun f hf => ((key mqtt_helper_cfg.zero c1).1 f).1 hf⟩
  · intro w1 w2 h1 h2
    obtain ⟨hst, htr⟩ := (key c1 c2).2 w1 w2 h1 h2
    refine ⟨hst, htr, ?_⟩
    have hsub : ∀ l : List Action, l.filter (fun a => a.is_external_call) =
        (l.filter (fun a => !a.is_callback)).filter (fun a => a.is_external_call) := by
      intro l
      rw [List.filter_filter]
      congr 1
      funext a
      cases a <;> rfl
    rw [hsub w1.trace, hsub w2.trace, htr]
  · intro w1 h1
    obtain ⟨_, added, ht, hg⟩ := mqtt_evt_handler_added k evt r _ w1 h1
    exact ⟨added, ht, fun a ha => (hg a ha).1⟩


/-! ## Claims on the exits of the worker loop and on disconnect -/

/-- C11: on the code, a loss of the socket seen by the worker loop is not surfaced through
`on_disconnect`.  In state Connected with the `on_disconnect` slot set, a negative `poll`
result, and likewise a cycle whose `revents` carries `POLLNVAL`, `POLLHUP` and `POLLERR`, makes
`mqtt_helper_poll_loop` leave its loop and return in state Disconnected; the whole trace of the
call is the semaphore take, the two calls of the poll cycle and the state transition:
`on_disconnect` is not invoked. -/
theorem socket_loss_skips_on_disconnect :
    (World.in_state MQTT_STATE_CONNECTED).current_cfg.on_disconnect = true ∧
    (∃ w', mqtt_helper_poll_loop Kconfig.sample [PollCycle.poll_error]
        (k_sem_give (World.in_state MQTT_STATE_CONNECTED)) = .returned w' ∧
      w'.mqtt_state = MQTT_STATE_DISCONNECTED ∧
      w'.trace = [.k_sem_give, .k_sem_take, .mqtt_keepalive_time_left, .poll 1000,
        .state_transition MQTT_STATE_CONNECTED MQTT_STATE_DISCONNECTED]) ∧
    (∃ w', mqtt_helper_poll_loop Kconfig.sample [PollCycle.socket_gone]
        (k_sem_give (World.in_state MQTT_STATE_CONNECTED)) = .returned w' ∧
      w'.mqtt_state = MQTT_STATE_DISCONNECTED ∧
      w'.trace = [.k_sem_give, .k_sem_take, .mqtt_keepalive_time_left, .poll 1000,
        .state_transition MQTT_STATE_CONNECTED MQTT_STATE_DISCONNECTED]) :=
  ⟨rfl, ⟨_, rfl, rfl, rfl⟩, ⟨_, rfl, rfl, rfl⟩⟩

/-- C15, as the code has it: a call of `mqtt_helper_disconnect` in state Connected sets the
state to Disconnecting, calls `mqtt_disconnect` and returns its result.  When that result is 0
the state on return is Disconnecting, and the worker loop, at its next check of the state,
leaves its loop and sets the state to Disconnected.  When the result is not 0 the call itself
sets the state to Disconnected and invokes `on_disconnect`, its slot being set, with the
result. -/
theorem mqtt_helper_disconnect_in_connected (disconnect_ret : Int) (w : World)
    (hs : w.mqtt_state = MQTT_STATE_CONNECTED) :
    ∃ w', mqtt_helper_disconnect disconnect_ret w = .ok (disconnect_ret, w') ∧
      w'.mqtt_state = (if disconnect_ret = 0 then MQTT_STATE_DISCONNECTING
                       else MQTT_STATE_DISCONNECTED) ∧
      w'.trace = w.trace ++
        [.state_transition MQTT_STATE_CONNECTED MQTT_STATE_DISCONNECTING, .mqtt_disconnect] ++
        (if disconnect_ret = 0 then []
         else .state_transition MQTT_STATE_DISCONNECTING MQTT_STATE_DISCONNECTED ::
           (if w.current_cfg.on_disconnect then [.on_disconnect disconnect_ret] else [])) ∧
      (disconnect_ret = 0 → ∀ (k : Kconfig) (cs : List PollCycle),
        poll_loop_while k cs w' = .exited w' ∧
        poll_loop_exit w' = .ok (w'.transition MQTT_STATE_DISCONNECTED)) := by
  rw [mqtt_helper_disconnect_eq, if_pos hs]
  by_cases h0 : disconnect_ret = 0
  · simp only [h0, ne_eq, not_true_eq_false, if_false, if_true]
    refine ⟨_, rfl, rfl, by simp [hs], fun _ k cs => ⟨?_, ?_⟩⟩
    · cases cs <;> simp [poll_loop_while, mqtt_state_verify_eq]
    · exact mqtt_state_set_from (S := MQTT_STATE_DISCONNECTING) rfl (by decide) (by decide)
  · by_cases h3 : w.current_cfg.on_disconnect = true
    · simp only [h0, ne_eq, not_false_eq_true, if_true, if_false, h3]
      exact ⟨_, rfl, rfl, by simp [hs], fun h => False.elim h⟩
    · simp only [h0, ne_eq, not_false_eq_true, if_true, if_false, h3]
      exact ⟨_, rfl, rfl, by simp [hs], fun h => False.elim h⟩

/-- C15 at a concrete input: a DISCONNECT that is sent leaves the state Disconnecting. -/
theorem mqtt_helper_disconnect_in_connected_witness :
    ∃ w', mqtt_helper_disconnect 0 (World.in_state MQTT_STATE_CONNECTED) = .ok (0, w') ∧
      w'.mqtt_state = MQTT_STATE_DISCONNECTING :=
  (mqtt_helper_disconnect_in_connected 0 (World.in_state MQTT_STATE_CONNECTED) rfl).imp
    fun _ h => ⟨h.1, h.2.1⟩

/-- C15 as stated fails: in state Connected with `mqtt_disconnect` answering -128, the state when
`mqtt_helper_disconnect` returns is Disconnected, not Disconnecting, and `on_disconnect` has
been invoked by the call itself. -/
theorem mqtt_helper_disconnect_send_failure :
    ∃ w', mqtt_helper_disconnect (-128) (World.in_state MQTT_STATE_CONNECTED) =
        .ok (-128, w') ∧
      w'.mqtt_state = MQTT_STATE_DISCONNECTED ∧ w'.mqtt_state ≠ MQTT_STATE_DISCONNECTING ∧
      w'.trace = [.state_transition MQTT_STATE_CONNECTED MQTT_STATE_DISCONNECTING,
        .mqtt_disconnect, .state_transition MQTT_STATE_DISCONNECTING MQTT_STATE_DISCONNECTED,
        .on_disconnect (-128)] :=
  ⟨_, rfl, rfl, by decide, rfl⟩

/-! ## Claims on broker resolution -/

/-- The hypothesis that the lookup result is IPv4-filtered cannot be dropped.  The body of the
loop of `broker_init` ends in `break`, so the head of the list alone is examined: for a result
whose first entry is not IPv4-sized and whose second entry is (a resolver that does not honour
the hints), `broker_init` returns 0 and leaves the broker address as it was (all zero here),
whereas the first matching result is the second entry. -/
theorem broker_init_skips_later_match :
    (broker_init Kconfig.sample mqtt_helper_conn_params.sample ConnectEnv.ipv6_first
      World.boot).1 = 0 ∧
    expected_broker Kconfig.sample ConnectEnv.ipv6_first.gai_result =
      some { sin_family := AF_INET, sin_port := htons 8883, sin_addr := 16777343 } ∧
    (broker_init Kconfig.sample mqtt_helper_conn_params.sample ConnectEnv.ipv6_first
      World.boot).2.2.broker = { sin_family := 0, sin_port := 0, sin_addr := 0 } ∧
    some (broker_init Kconfig.sample mqtt_helper_conn_params.sample ConnectEnv.ipv6_first
      World.boot).2.2.broker ≠
      expected_broker Kconfig.sample ConnectEnv.ipv6_first.gai_result :=
  ⟨rfl, rfl, rfl, by decide⟩

/-! ## Claims on the end-to-end scenario -/

/-- The dispatch of a publish acknowledgment, written out. -/
theorem mqtt_evt_handler_puback (k : Kconfig) (message_id : Nat) (result : Int)
    (r : CodecReply) (w : World) :
    mqtt_evt_handler k (.MQTT_EVT_PUBACK message_id result) r w =
      .ok (if w.current_cfg.on_puback then w.emit (.on_puback message_id result) else w) := by
  simp only [mqtt_evt_handler]
  split_ifs <;> rfl

/-- C16, as the code has it: end-to-end scenario 1.  From state Uninitialized,
`mqtt_helper_init(cfg)` returns 0; a `mqtt_helper_connect` whose lookup, credential installs and
`mqtt_connect` succeed returns 0; the dispatch of an accepted connack leaves the state
Connected; a following `mqtt_helper_publish` goes past its guard, calls `mqtt_publish` exactly
once with the parameters (which carry the message id) and returns the result of `mqtt_publish`;
and the dispatch of a puback with that message id and result 0 invokes `on_puback`, its slot
being set, exactly once with that id and 0, and leaves the state Connected. -/
theorem scenario_connect_publish_puback (k : Kconfig) (cfg : mqtt_helper_cfg)
    (p : mqtt_helper_conn_params) (e : ConnectEnv) (r r2 : CodecReply) (message_id : Nat)
    (publish_ret : Int) (w : World) (hs : w.mqtt_state = MQTT_STATE_UNINIT)
    (hres : e.gai_err = 0) (hcred : 0 ≤ e.ca_ret ∧ 0 ≤ e.key_ret ∧ 0 ≤ e.cert_ret)
    (hconn : e.connect_ret = 0) :
    ∃ w1 w2 w3 w5, mqtt_helper_init cfg w = .ok (0, w1) ∧
      mqtt_helper_connect k p e w1 = .ok (0, w2) ∧
      mqtt_evt_handler k (.MQTT_EVT_CONNACK MQTT_CONNECTION_ACCEPTED) r w2 = .ok w3 ∧
      w3.mqtt_state = MQTT_STATE_CONNECTED ∧
      mqtt_helper_publish message_id publish_ret w3 =
        (publish_ret, w3.emit (.mqtt_publish message_id)) ∧
      mqtt_evt_handler k (.MQTT_EVT_PUBACK message_id 0) r2
        (w3.emit (.mqtt_publish message_id)) = .ok w5 ∧
      w5.mqtt_state = MQTT_STATE_CONNECTED ∧
      w5.trace = w3.trace ++ [.mqtt_publish message_id] ++
        (if cfg.on_puback then [.on_puback message_id 0] else []) := by
  -- init
  have hinit : mqtt_helper_init cfg w =
      .ok (0, ({ w with current_cfg := cfg } : World).transition MQTT_STATE_DISCONNECTED) := by
    rw [mqtt_helper_init_eq, if_pos hs]
  obtain ⟨w1, hw1⟩ : ∃ w1, w1 =
      ({ w with current_cfg := cfg } : World).transition MQTT_STATE_DISCONNECTED := ⟨_, rfl⟩
  have s1 : w1.mqtt_state = MQTT_STATE_DISCONNECTED := by rw [hw1]; rfl
  have c1 : w1.current_cfg = cfg := by rw [hw1]; rfl
  rw [← hw1] at hinit
  -- connect
  obtain ⟨s2, c2, _, _⟩ := connect_trace_upto_client_connect k p e w1 s1
  have hconnect := mqtt_helper_connect_disconnected k p e w1 s1
  simp only [client_broker_init_ret_ok k p e w1 hres hcred, hconn, ne_eq, not_true_eq_false,
    if_false] at hconnect
  obtain ⟨w2, hw2⟩ : ∃ w2, w2 = k_sem_give (client_connect k e
      ((client_broker_init k p e w1).2.transition MQTT_STATE_CONNECTING)).2 := ⟨_, rfl⟩
  have s2' : w2.mqtt_state = MQTT_STATE_CONNECTING := by rw [hw2]; exact s2
  have c2' : w2.current_cfg = cfg := by rw [hw2]; exact c2.trans c1
  rw [← hw2] at hconnect
  -- connack
  have hset := mqtt_state_set_from (T := MQTT_STATE_CONNECTED) s2' (by decide) (by decide)
  by_cases hca : cfg.on_connack = true
  · have hack : mqtt_evt_handler k (.MQTT_EVT_CONNACK MQTT_CONNECTION_ACCEPTED) r w2 =
        .ok ((w2.transition MQTT_STATE_CONNECTED).emit
          (.on_connack MQTT_CONNECTION_ACCEPTED)) := by
      simp [mqtt_evt_handler, hset, c2', hca]
    refine ⟨w1, w2, _, _, hinit, hconnect, hack, rfl, ?_, mqtt_evt_handler_puback _ _ _ _ _,
      ?_, ?_⟩
    · simp [mqtt_helper_publish_eq]
    · by_cases hp : cfg.on_puback = true <;> simp [c2', hp]
    · by_cases hp : cfg.on_puback = true <;> simp [c2', hp]
  · have hack : mqtt_evt_handler k (.MQTT_EVT_CONNACK MQTT_CONNECTION_ACCEPTED) r w2 =
        .ok (w2.transition MQTT_STATE_CONNECTED) := by
      simp [mqtt_evt_handler, hset, c2', hca]
    refine ⟨w1, w2, _, _, hinit, hconnect, hack, rfl, ?_, mqtt_evt_handler_puback _ _ _ _ _,
      ?_, ?_⟩
    · simp [mqtt_helper_publish_eq]
    · by_cases hp : cfg.on_puback = true <;> simp [c2', hp]
    · by_cases hp : cfg.on_puback = true <;> simp [c2', hp]

/-- C16 at a concrete input: the scenario run from program start with a publish of message id
42 that the codec accepts. -/
theorem scenario_connect_publish_puback_witness :
    ∃ w1 w2 w3 w5, mqtt_helper_init mqtt_helper_cfg.all_set World.boot = .ok (0, w1) ∧
      mqtt_helper_connect Kconfig.sample mqtt_helper_conn_params.sample ConnectEnv.all_ok w1 =
        .ok (0, w2) ∧
      mqtt_evt_handler Kconfig.sample (.MQTT_EVT_CONNACK MQTT_CONNECTION_ACCEPTED) ⟨0, 0⟩ w2 =
        .ok w3 ∧
      w3.mqtt_state = MQTT_STATE_CONNECTED ∧
      mqtt_helper_publish 42 0 w3 = (0, w3.emit (.mqtt_publish 42)) ∧
      mqtt_evt_handler Kconfig.sample (.MQTT_EVT_PUBACK 42 0) ⟨0, 0⟩
        (w3.emit (.mqtt_publish 42)) = .ok w5 ∧
      w5.mqtt_state = MQTT_STATE_CONNECTED ∧
      w5.trace = w3.trace ++ [.mqtt_publish 42] ++
        (if mqtt_helper_cfg.all_set.on_puback then [.on_puback 42 0] else []) :=
  scenario_connect_publish_puback Kconfig.sample mqtt_helper_cfg.all_set
    mqtt_helper_conn_params.sample ConnectEnv.all_ok ⟨0, 0⟩ ⟨0, 0⟩ 42 0 World.boot rfl rfl
    (by decide) rfl

/-- C16 as stated fails: in the scenario run from program start, the publish of message id 42
that the codec accepts (answer 0) makes `mqtt_helper_publish` return 0, which is not the message
id. -/
theorem publish_returns_codec_result_not_id :
    ∃ w1 w2 w3, mqtt_helper_init mqtt_helper_cfg.all_set World.boot = .ok (0, w1) ∧
      mqtt_helper_connect Kconfig.sample mqtt_helper_conn_params.sample ConnectEnv.all_ok w1 =
        .ok (0, w2) ∧
      mqtt_evt_handler Kconfig.sample (.MQTT_EVT_CONNACK MQTT_CONNECTION_ACCEPTED) ⟨0, 0⟩ w2 =
        .ok w3 ∧
      w3.mqtt_state = MQTT_STATE_CONNECTED ∧
      (mqtt_helper_publish 42 0 w3).1 = 0 ∧ (mqtt_helper_publish 42 0 w3).1 ≠ 42 ∧
      (mqtt_helper_publish 42 0 w3).2.trace = w3.trace ++ [.mqtt_publish 42] :=
  ⟨_, _, _, rfl, rfl, rfl, rfl, rfl, by decide, rfl⟩

/-! ## Claims on a failed payload read -/

/-- C21: an inbound publish whose declared length fits `sizeof(payload_buf)`.  The handler does
not fault, leaves the connection state alone and first reads the payload.  When the read returns
a nonzero value the handler reports it as `MQTT_HELPER_ERROR_MSG_SIZE`, although the length fits:
`on_error`, its slot being set, is invoked once with that indicator, and neither an
acknowledgment send nor `on_publish` follows.  When the read returns 0, `on_error` is not invoked;
the acknowledgment of a QoS 1 publish and then `on_publish`, its slot being set, follow.  So
with the `on_error` slot set the error is reported if and only if the read returned nonzero. -/
theorem mqtt_evt_handler_publish_read_result (k : Kconfig) (message_id : Nat) (topic : String)
    (qos payload_len : Nat) (r : CodecReply) (w : World)
    (hlen : payload_len ≤ k.MQTT_PAYLOAD_BUFFER_LEN) :
    ∃ w' added,
      mqtt_evt_handler k (.MQTT_EVT_PUBLISH message_id topic qos payload_len) r w = .ok w' ∧
      w'.mqtt_state = w.mqtt_state ∧
      w'.trace = w.trace ++ added ∧
      added = .mqtt_readall_publish_payload payload_len ::
        (if r.readall_ret ≠ 0 then
          (if w.current_cfg.on_error then [.on_error .MQTT_HELPER_ERROR_MSG_SIZE] else [])
         else
          (if qos = MQTT_QOS_1_AT_LEAST_ONCE then [.mqtt_publish_qos1_ack message_id]
           else []) ++
          (if w.current_cfg.on_publish then [.on_publish topic payload_len] else [])) ∧
      (w.current_cfg.on_error = true →
        (Action.on_error .MQTT_HELPER_ERROR_MSG_SIZE ∈ added ↔ r.readall_ret ≠ 0)) ∧
      (r.readall_ret ≠ 0 →
        added.count (.on_error .MQTT_HELPER_ERROR_MSG_SIZE) =
          (if w.current_cfg.on_error then 1 else 0) ∧
        Action.mqtt_publish_qos1_ack message_id ∉ added ∧
        Action.on_publish topic payload_len ∉ added) ∧
      (r.readall_ret = 0 →
        Action.on_error .MQTT_HELPER_ERROR_MSG_SIZE ∉ added ∧
        added.count (.on_publish topic payload_len) =
          (if w.current_cfg.on_publish then 1 else 0)) := by
  have hl : ¬ payload_len > k.MQTT_PAYLOAD_BUFFER_LEN := by omega
  obtain ⟨_, ht⟩ := on_publish_trace k message_id topic qos payload_len r w
  rw [if_neg hl] at ht
  refine ⟨_, _, rfl, on_publish_mqtt_state k message_id topic qos payload_len r w, ?_, rfl,
    ?_, ?_, ?_⟩
  · rw [ht]
    by_cases h2 : r.readall_ret = 0 <;> simp [h2]
  · intro he
    by_cases h2 : r.readall_ret = 0 <;>
      by_cases h3 : qos = MQTT_QOS_1_AT_LEAST_ONCE <;>
      by_cases h4 : w.current_cfg.on_publish = true <;>
      simp [h2, h3, h4, he]
  · intro h2
    by_cases h5 : w.current_cfg.on_error = true <;> simp [h2, h5, List.count_cons]
  · intro h2
    by_cases h3 : qos = MQTT_QOS_1_AT_LEAST_ONCE <;>
      by_cases h4 : w.current_cfg.on_publish = true <;>
      simp [h2, h3, h4, List.count_cons]

/-- C21 at a concrete input: a QoS 1 publish of exactly the buffer capacity whose payload read
fails with -5 ends in `on_error(MQTT_HELPER_ERROR_MSG_SIZE)`, with no acknowledgment and no
`on_publish`. -/
theorem mqtt_evt_handler_publish_read_result_witness :
    ∃ w', mqtt_evt_handler Kconfig.sample (.MQTT_EVT_PUBLISH 7 "t" 1 4) ⟨-5, 0⟩
        (World.in_state MQTT_STATE_CONNECTED) = .ok w' ∧
      w'.trace = [.mqtt_readall_publish_payload 4, .on_error .MQTT_HELPER_ERROR_MSG_SIZE] := by
  obtain ⟨w', added, h1, _, h3, h4, _⟩ :=
    mqtt_evt_handler_publish_read_result Kconfig.sample 7 "t" 1 4 ⟨-5, 0⟩
      (World.in_state MQTT_STATE_CONNECTED) (by decide)
  refine ⟨w', h1, ?_⟩
  rw [h3, h4]
  rfl

end AzureIotHubMqtt
